import Mathlib

/-!
# simple_vulkan: a shallow embedding of `Clib/simple_vulkan.c`

The C layer wraps the Vulkan compute API behind five handle types.  This file
embeds the parts of it that the specification makes claims about.

Conventions of the embedding

* A C pointer to one of the layer's structs is an `Option` of the struct value:
  `none` is `NULL`.  The structs behind buffer and image handles are never
  mutated after creation, so holding them by value loses nothing.
* Native (Vulkan) handles are natural numbers, `0` being `VK_NULL_HANDLE`.
* Machine integers are natural numbers; where the C arithmetic is performed at a
  fixed width the reduction modulo `2 ^ 32` or `2 ^ 64` is written out.
* Bytes are natural numbers; the layer only ever copies them.
* The native API is an external collaborator.  The result of each native call
  is an argument of the embedded function (an outcome record), and every
  embedded function returns the list of native calls it issued that create,
  destroy, map, update or submit something, in program order.  Read-only
  queries (`vkGet...`, `vkEnumerate...`) are inputs and are not listed.
* Host allocation (`calloc`, `malloc`) is taken to succeed.
-/

namespace SimpleVulkan

/-! ## Constants -/

/-- Number of binding slots per pipeline: `#define SVK_MAX_BINDINGS 8`. -/
abbrev SVK_MAX_BINDINGS : Nat := 8

/-- Buffer usage flag: `#define SVK_BUFFER_STORAGE 0x01`. -/
def SVK_BUFFER_STORAGE : Nat := 0x01
/-- Buffer usage flag: `#define SVK_BUFFER_UNIFORM 0x02`. -/
def SVK_BUFFER_UNIFORM : Nat := 0x02
/-- Buffer usage flag: `#define SVK_BUFFER_TRANSFER 0x04`. -/
def SVK_BUFFER_TRANSFER : Nat := 0x04

/-- Image format tag: `#define SVK_FORMAT_RGBA8 0x01`. -/
def SVK_FORMAT_RGBA8 : Nat := 0x01
/-- Image format tag: `#define SVK_FORMAT_RGBA32F 0x02`. -/
def SVK_FORMAT_RGBA32F : Nat := 0x02

/-- The value `UINT32_MAX` of `<stdint.h>`. -/
def UINT32_MAX : Nat := 2 ^ 32 - 1

/-- Vulkan enumerator `VK_PHYSICAL_DEVICE_TYPE_INTEGRATED_GPU` (vulkan_core.h). -/
def VK_PHYSICAL_DEVICE_TYPE_INTEGRATED_GPU : Nat := 1
/-- Vulkan enumerator `VK_PHYSICAL_DEVICE_TYPE_DISCRETE_GPU` (vulkan_core.h). -/
def VK_PHYSICAL_DEVICE_TYPE_DISCRETE_GPU : Nat := 2
/-- Vulkan flag `VK_QUEUE_COMPUTE_BIT` (vulkan_core.h). -/
def VK_QUEUE_COMPUTE_BIT : Nat := 0x2
/-- Vulkan flag `VK_MEMORY_PROPERTY_DEVICE_LOCAL_BIT` (vulkan_core.h). -/
def VK_MEMORY_PROPERTY_DEVICE_LOCAL_BIT : Nat := 0x1
/-- Vulkan flag `VK_MEMORY_PROPERTY_HOST_VISIBLE_BIT` (vulkan_core.h). -/
def VK_MEMORY_PROPERTY_HOST_VISIBLE_BIT : Nat := 0x2
/-- Vulkan flag `VK_MEMORY_PROPERTY_HOST_COHERENT_BIT` (vulkan_core.h). -/
def VK_MEMORY_PROPERTY_HOST_COHERENT_BIT : Nat := 0x4
/-- Vulkan flag `VK_BUFFER_USAGE_TRANSFER_SRC_BIT` (vulkan_core.h). -/
def VK_BUFFER_USAGE_TRANSFER_SRC_BIT : Nat := 0x1
/-- Vulkan flag `VK_BUFFER_USAGE_TRANSFER_DST_BIT` (vulkan_core.h). -/
def VK_BUFFER_USAGE_TRANSFER_DST_BIT : Nat := 0x2
/-- Vulkan flag `VK_BUFFER_USAGE_UNIFORM_BUFFER_BIT` (vulkan_core.h). -/
def VK_BUFFER_USAGE_UNIFORM_BUFFER_BIT : Nat := 0x10
/-- Vulkan flag `VK_BUFFER_USAGE_STORAGE_BUFFER_BIT` (vulkan_core.h). -/
def VK_BUFFER_USAGE_STORAGE_BUFFER_BIT : Nat := 0x20
/-- Vulkan enumerator `VK_DESCRIPTOR_TYPE_STORAGE_BUFFER` (vulkan_core.h). -/
def VK_DESCRIPTOR_TYPE_STORAGE_BUFFER : Nat := 7

/-! ## Data model -/

/-- The C `struct svk_context_t`. -/
structure svk_context_t where
  vk_instance : Nat
  physical_device : Nat
  device : Nat
  compute_queue : Nat
  compute_queue_family : Nat
  command_pool : Nat
  descriptor_pool : Nat
  device_name : List Nat
  vendor_id : Nat
  is_discrete : Int
  max_workgroup_size : Nat
  staging_buffer : Nat
  staging_memory : Nat
  staging_size : Nat
  deriving DecidableEq, Repr

/-- The C `struct svk_buffer_t`. -/
structure svk_buffer_t where
  buffer : Nat
  memory : Nat
  size : Nat
  usage : Nat
  deriving DecidableEq, Repr

/-- The C `struct svk_image_t`. -/
structure svk_image_t where
  image : Nat
  memory : Nat
  view : Nat
  width : Nat
  height : Nat
  format : Nat
  deriving DecidableEq, Repr

/-- The C `struct svk_shader_t`. -/
structure svk_shader_t where
  module : Nat
  deriving DecidableEq, Repr

/-- The C `struct svk_pipeline_t`.  The fixed-size arrays `buffers`, `images`
(`SVK_MAX_BINDINGS` entries) and `push_data` (128 bytes) are functions on their
index range. -/
structure svk_pipeline_t where
  pipeline : Nat
  layout : Nat
  desc_layout : Nat
  desc_set : Nat
  buffers : Fin SVK_MAX_BINDINGS → Option svk_buffer_t
  images : Fin SVK_MAX_BINDINGS → Option svk_image_t
  push_data : Fin 128 → Nat
  push_size : Nat
  output_image : Option svk_image_t
  workgroup_x : Nat
  workgroup_y : Nat

/-- The fields of a `VkWriteDescriptorSet` that `svk_dispatch` fills in, with the
`VkDescriptorBufferInfo` that its `pBufferInfo` points to (`buffer`, `offset`,
`range`) held inline. -/
structure VkWriteDescriptorSet where
  dstSet : Nat
  dstBinding : Nat
  descriptorCount : Nat
  descriptorType : Nat
  buffer : Nat
  offset : Nat
  range : Nat
  deriving DecidableEq, Repr

/-- The native calls the layer issues that change something on the native side.
Handles created by a call are part of the entry when the call succeeded. -/
inductive VkCall where
  | vkCreateInstance (result : Option Nat)
  | vkDestroyInstance (inst : Nat)
  | vkCreateDevice (physical_device : Nat) (queue_family : Nat) (result : Option Nat)
  | vkDestroyDevice (device : Nat)
  | vkCreateCommandPool (queue_family : Nat) (result : Option Nat)
  | vkCreateDescriptorPool (result : Option Nat)
  | vkCreateBuffer (size : Nat) (usage : Nat) (result : Option Nat)
  | vkDestroyBuffer (buffer : Nat)
  | vkAllocateMemory (allocationSize : Nat) (memoryTypeIndex : Nat) (result : Option Nat)
  | vkFreeMemory (memory : Nat)
  | vkBindBufferMemory (buffer : Nat) (memory : Nat) (ok : Bool)
  | vkMapMemory (memory : Nat) (offset : Nat) (size : Nat) (ok : Bool)
  | vkUnmapMemory (memory : Nat)
  | vkCreateDescriptorSetLayout (bindingCount : Nat) (result : Option Nat)
  | vkDestroyDescriptorSetLayout (layout : Nat)
  | vkAllocateDescriptorSets (pool : Nat) (layout : Nat) (result : Option Nat)
  | vkCreatePipelineLayout (desc_layout : Nat) (pushRange : Nat) (result : Option Nat)
  | vkDestroyPipelineLayout (layout : Nat)
  | vkCreateComputePipelines (module : Nat) (layout : Nat) (result : Option Nat)
  | vkDestroyPipeline (pipeline : Nat)
  | vkAllocateCommandBuffers (pool : Nat)
  | vkFreeCommandBuffers (pool : Nat)
  | vkBeginCommandBuffer
  | vkCmdPipelineBarrier (image : Nat)
  | vkCmdCopyImageToBuffer (image : Nat) (buffer : Nat) (width height : Nat)
  | vkEndCommandBuffer
  | vkQueueSubmit (queue : Nat)
  | vkQueueWaitIdle (queue : Nat)
  | vkDeviceWaitIdle (device : Nat)
  | vkDestroyCommandPool (pool : Nat)
  | vkDestroyDescriptorPool (pool : Nat)
  | vkDestroyImageView (view : Nat)
  | vkDestroyImage (image : Nat)
  | vkCmdBindPipeline (pipeline : Nat)
  | vkUpdateDescriptorSets (writes : List VkWriteDescriptorSet)
  | vkCmdBindDescriptorSets (layout : Nat) (desc_set : Nat)
  | vkCmdPushConstants (layout : Nat) (size : Nat) (values : List Nat)
  | vkCmdDispatch (x y z : Nat)
  deriving DecidableEq, Repr

/-- Contents of one device-memory allocation: the byte at each address. -/
abbrev DeviceMemory := Nat → Nat

/-- The C `memcpy (mapped, data, size)` where `mapped` is the address `offset`
of the allocation `mem`: bytes `offset .. offset + size - 1` become the first
`size` bytes of `data`.  (`data` holds at least `size` bytes, as `memcpy`
requires; a missing byte reads as 0.) -/
def memcpy_to_device (mem : DeviceMemory) (offset : Nat) (data : List Nat) (size : Nat) :
    DeviceMemory :=
  fun a => if offset ≤ a ∧ a < offset + size then data.getD (a - offset) 0 else mem a

/-- The C `memcpy (data, mapped, size)` where `mapped` is the address `offset`
of the allocation `mem`: the first `size` bytes of the host array `data` become
bytes `offset .. offset + size - 1` of `mem`; the rest of `data` is kept. -/
def memcpy_from_device (data : List Nat) (mem : DeviceMemory) (offset : Nat) (size : Nat) :
    List Nat :=
  (List.range size).map (fun i => mem (offset + i)) ++ data.drop size

/-! ## Buffer transfer -/

/-- The C `svk_upload_buffer`.  `size` and `offset` are `uint64_t`, so the sum in
the range check is taken modulo `2 ^ 64`.  `mapOk` is whether `vkMapMemory`
returns `VK_SUCCESS`; `mem` is the content of the buffer's memory allocation.
Returns the C return value, the content of the allocation afterwards and the
native calls issued.  The caller's `data` is `const` and never written. -/
def svk_upload_buffer (ctx : Option svk_context_t) (buf : Option svk_buffer_t)
    (data : Option (List Nat)) (size offset : Nat) (mapOk : Bool) (mem : DeviceMemory) :
    Int × DeviceMemory × List VkCall :=
  match ctx, buf, data with
  | some _, some b, some d =>
    if (offset + size) % 2 ^ 64 > b.size then (0, mem, [])
    else if !mapOk then (0, mem, [VkCall.vkMapMemory b.memory offset size false])
    else (1, memcpy_to_device mem offset d size,
          [VkCall.vkMapMemory b.memory offset size true, VkCall.vkUnmapMemory b.memory])
  | _, _, _ => (0, mem, [])

/-- The C `svk_download_buffer`.  Arguments as for `svk_upload_buffer`; `data`
is the caller's array before the call.  Returns the C return value, the caller's
array afterwards and the native calls issued.  Device memory is only read. -/
def svk_download_buffer (ctx : Option svk_context_t) (buf : Option svk_buffer_t)
    (data : Option (List Nat)) (size offset : Nat) (mapOk : Bool) (mem : DeviceMemory) :
    Int × Option (List Nat) × List VkCall :=
  match ctx, buf, data with
  | some _, some b, some d =>
    if (offset + size) % 2 ^ 64 > b.size then (0, some d, [])
    else if !mapOk then (0, some d, [VkCall.vkMapMemory b.memory offset size false])
    else (1, some (memcpy_from_device d mem offset size),
          [VkCall.vkMapMemory b.memory offset size true, VkCall.vkUnmapMemory b.memory])
  | _, _, _ => (0, data, [])

/-! ## Pipeline binding state -/

/-- The C `svk_bind_buffer`.  `binding` is a `uint32_t`.  Returns the C return
value, the pipeline afterwards and the native calls issued (the function body
contains none). -/
def svk_bind_buffer (pipe : Option svk_pipeline_t) (binding : Nat) (buf : Option svk_buffer_t) :
    Int × Option svk_pipeline_t × List VkCall :=
  match pipe, buf with
  | some p, some b =>
    if h : binding ≥ SVK_MAX_BINDINGS then (0, some p, [])
    else (1, some { p with buffers := Function.update p.buffers ⟨binding, by omega⟩ (some b) }, [])
  | _, _ => (0, pipe, [])

/-- The C `svk_bind_image`. -/
def svk_bind_image (pipe : Option svk_pipeline_t) (binding : Nat) (img : Option svk_image_t) :
    Int × Option svk_pipeline_t × List VkCall :=
  match pipe, img with
  | some p, some im =>
    if h : binding ≥ SVK_MAX_BINDINGS then (0, some p, [])
    else (1, some { p with images := Function.update p.images ⟨binding, by omega⟩ (some im) }, [])
  | _, _ => (0, pipe, [])

/-- The C `svk_set_push_constants`: `memcpy (pipe->push_data, data, size)` then
`pipe->push_size = size`, unless an argument is null or `size > 128`. -/
def svk_set_push_constants (pipe : Option svk_pipeline_t) (data : Option (List Nat))
    (size : Nat) : Int × Option svk_pipeline_t × List VkCall :=
  match pipe, data with
  | some p, some d =>
    if size > 128 then (0, some p, [])
    else (1, some { p with
                    push_data := fun i => if i.val < size then d.getD i.val 0 else p.push_data i
                    push_size := size }, [])
  | _, _ => (0, pipe, [])

/-- A caller making successive `svk_bind_buffer` calls on one pipeline, the
k-th buffer of the list at slot `start + k`; gives the return value of each
call and the pipeline after the last one. -/
def bind_buffers_from (p : svk_pipeline_t) : Nat → List svk_buffer_t → List Int × svk_pipeline_t
  | _, [] => ([], p)
  | start, b :: bs =>
    let r := svk_bind_buffer (some p) start (some b)
    let rest := bind_buffers_from (r.2.1.getD p) (start + 1) bs
    (r.1 :: rest.1, rest.2)

/-! ## Device selection and initialisation -/

/-- The fields of `VkPhysicalDeviceProperties` that `svk_init` reads
(`maxComputeWorkGroupInvocations` is `limits.maxComputeWorkGroupInvocations`;
`deviceName` is the string without its terminating NUL). -/
structure VkPhysicalDeviceProperties where
  deviceType : Nat
  vendorID : Nat
  deviceName : List Nat
  maxComputeWorkGroupInvocations : Nat
  deriving DecidableEq, Repr

/-- One enumerated physical device: its handle and what the native queries
`vkGetPhysicalDeviceProperties` and `vkGetPhysicalDeviceQueueFamilyProperties`
report for it (`queueFlags` holds the flags of each queue family, in order). -/
structure PhysicalDevice where
  handle : Nat
  props : VkPhysicalDeviceProperties
  queueFlags : List Nat
  deriving DecidableEq, Repr

/-- The loop of the C `find_compute_queue_family`, at family index `i` with the
families from `i` on still to visit. -/
def find_compute_queue_family_loop : List Nat → Nat → Option Nat
  | [], _ => none
  | flags :: rest, i =>
    if flags &&& VK_QUEUE_COMPUTE_BIT ≠ 0 then some i
    else find_compute_queue_family_loop rest (i + 1)

/-- The C `find_compute_queue_family`: `some family` when it returns 1 and has
stored `family`, `none` when it returns 0. -/
def find_compute_queue_family (device : PhysicalDevice) : Option Nat :=
  find_compute_queue_family_loop device.queueFlags 0

/-- The `score` that the selection loop of `svk_init` computes for a device. -/
def device_score (props : VkPhysicalDeviceProperties) : Int :=
  if props.deviceType = VK_PHYSICAL_DEVICE_TYPE_DISCRETE_GPU then 0 + 1000
  else if props.deviceType = VK_PHYSICAL_DEVICE_TYPE_INTEGRATED_GPU then 0 + 100
  else 0

/-- One iteration of the selection loop of `svk_init`, on the pair
`(best_score, *ctx)`. -/
def svk_init_select_step (st : Int × svk_context_t) (d : PhysicalDevice) :
    Int × svk_context_t :=
  let score := device_score d.props
  match find_compute_queue_family d with
  | none => st
  | some family =>
    if score > st.1 then
      (score, { st.2 with
                physical_device := d.handle
                compute_queue_family := family
                device_name := d.props.deviceName.take 255
                vendor_id := d.props.vendorID
                is_discrete :=
                  if d.props.deviceType = VK_PHYSICAL_DEVICE_TYPE_DISCRETE_GPU then 1 else 0
                max_workgroup_size := d.props.maxComputeWorkGroupInvocations })
    else st

/-- The selection loop of `svk_init` over the enumerated devices, started with
`best_score = -1`. -/
def svk_init_select (devices : List PhysicalDevice) (ctx : svk_context_t) :
    Int × svk_context_t :=
  devices.foldl svk_init_select_step (-1, ctx)

/-- What the native API answers during `svk_init`: created handles (`none` when
the call does not return `VK_SUCCESS`), the enumerated devices, the queue
handle. -/
structure InitNative where
  createInstance : Option Nat
  devices : List PhysicalDevice
  createDevice : Option Nat
  deviceQueue : Nat
  createCommandPool : Option Nat
  createDescriptorPool : Option Nat
  deriving DecidableEq, Repr

/-- A context as `calloc` returns it: every field zero. -/
def zeroed_context : svk_context_t :=
  { vk_instance := 0, physical_device := 0, device := 0, compute_queue := 0,
    compute_queue_family := 0, command_pool := 0, descriptor_pool := 0,
    device_name := [], vendor_id := 0, is_discrete := 0, max_workgroup_size := 0,
    staging_buffer := 0, staging_memory := 0, staging_size := 0 }

/-- The C `svk_init`: the returned context (`none` is `NULL`) and the native
calls issued. -/
def svk_init (native : InitNative) : Option svk_context_t × List VkCall :=
  match native.createInstance with
  | none => (none, [VkCall.vkCreateInstance none])
  | some inst =>
    let ctx := { zeroed_context with vk_instance := inst }
    if native.devices.length = 0 then
      (none, [VkCall.vkCreateInstance (some inst), VkCall.vkDestroyInstance inst])
    else
      let sel := svk_init_select native.devices ctx
      let ctx := sel.2
      if sel.1 < 0 then
        (none, [VkCall.vkCreateInstance (some inst), VkCall.vkDestroyInstance inst])
      else
        match native.createDevice with
        | none =>
          (none, [VkCall.vkCreateInstance (some inst),
                  VkCall.vkCreateDevice ctx.physical_device ctx.compute_queue_family none,
                  VkCall.vkDestroyInstance inst])
        | some dev =>
          let ctx := { ctx with device := dev, compute_queue := native.deviceQueue }
          match native.createCommandPool with
          | none =>
            (none, [VkCall.vkCreateInstance (some inst),
                    VkCall.vkCreateDevice ctx.physical_device ctx.compute_queue_family (some dev),
                    VkCall.vkCreateCommandPool ctx.compute_queue_family none,
                    VkCall.vkDestroyDevice dev,
                    VkCall.vkDestroyInstance inst])
          | some pool =>
            (some { ctx with
                    command_pool := pool
                    descriptor_pool := native.createDescriptorPool.getD 0 },
             [VkCall.vkCreateInstance (some inst),
              VkCall.vkCreateDevice ctx.physical_device ctx.compute_queue_family (some dev),
              VkCall.vkCreateCommandPool ctx.compute_queue_family (some pool),
              VkCall.vkCreateDescriptorPool native.createDescriptorPool])

/-- The ordering of device classes in the words of the specification:
discrete above integrated above any other class. -/
def spec_class_rank (d : PhysicalDevice) : Nat :=
  if d.props.deviceType = VK_PHYSICAL_DEVICE_TYPE_DISCRETE_GPU then 2
  else if d.props.deviceType = VK_PHYSICAL_DEVICE_TYPE_INTEGRATED_GPU then 1
  else 0

/-! ## Buffer creation -/

/-- The loop of the C `find_memory_type`, at index `i` with the memory types
from `i` on still to visit (each given by its `propertyFlags`).  `1 << i` is
reduced to 32 bits, the width of `type_filter`. -/
def find_memory_type_loop (type_filter properties : Nat) : List Nat → Nat → Nat
  | [], _ => UINT32_MAX
  | flags :: rest, i =>
    if type_filter &&& ((1 <<< i) % 2 ^ 32) ≠ 0 ∧ flags &&& properties = properties then i
    else find_memory_type_loop type_filter properties rest (i + 1)

/-- The C `find_memory_type`; `memoryTypes` are the `propertyFlags` of the memory
types that `vkGetPhysicalDeviceMemoryProperties` reports. -/
def find_memory_type (memoryTypes : List Nat) (type_filter properties : Nat) : Nat :=
  find_memory_type_loop type_filter properties memoryTypes 0

/-- What the native API answers during `svk_create_buffer`. -/
structure CreateBufferNative where
  createBuffer : Option Nat
  memReqSize : Nat
  memoryTypeBits : Nat
  memoryTypes : List Nat
  allocateMemory : Option Nat
  bindBufferMemory : Bool
  deriving DecidableEq, Repr

/-- The `vk_usage` flags that `svk_create_buffer` builds from `usage`. -/
def buffer_vk_usage (usage : Nat) : Nat :=
  let vk_usage := VK_BUFFER_USAGE_TRANSFER_SRC_BIT ||| VK_BUFFER_USAGE_TRANSFER_DST_BIT
  let vk_usage :=
    if usage &&& SVK_BUFFER_STORAGE ≠ 0 then vk_usage ||| VK_BUFFER_USAGE_STORAGE_BUFFER_BIT
    else vk_usage
  if usage &&& SVK_BUFFER_UNIFORM ≠ 0 then vk_usage ||| VK_BUFFER_USAGE_UNIFORM_BUFFER_BIT
  else vk_usage

/-- The C `svk_create_buffer`: the returned handle (`none` is `NULL`) and the
native calls issued. -/
def svk_create_buffer (ctx : Option svk_context_t) (size usage : Nat)
    (native : CreateBufferNative) : Option svk_buffer_t × List VkCall :=
  match ctx with
  | none => (none, [])
  | some _ =>
    if size = 0 then (none, [])
    else
      let vk_usage := buffer_vk_usage usage
      match native.createBuffer with
      | none => (none, [VkCall.vkCreateBuffer size vk_usage none])
      | some b =>
        let memoryTypeIndex :=
          find_memory_type native.memoryTypes native.memoryTypeBits
            (VK_MEMORY_PROPERTY_HOST_VISIBLE_BIT ||| VK_MEMORY_PROPERTY_HOST_COHERENT_BIT)
        match native.allocateMemory with
        | none =>
          (none, [VkCall.vkCreateBuffer size vk_usage (some b),
                  VkCall.vkAllocateMemory native.memReqSize memoryTypeIndex none,
                  VkCall.vkDestroyBuffer b])
        | some m =>
          (some { buffer := b, memory := m, size := size, usage := usage },
           [VkCall.vkCreateBuffer size vk_usage (some b),
            VkCall.vkAllocateMemory native.memReqSize memoryTypeIndex (some m),
            VkCall.vkBindBufferMemory b m native.bindBufferMemory])

/-! ## Pipeline creation -/

/-- What the native API answers during `svk_create_pipeline`; each field is the
handle made by the call of that name, `none` when the call fails. -/
structure CreatePipelineNative where
  createDescriptorSetLayout : Option Nat
  allocateDescriptorSets : Option Nat
  createPipelineLayout : Option Nat
  createComputePipelines : Option Nat
  deriving DecidableEq, Repr

/-- A pipeline as `calloc` returns it: every field zero, every slot `NULL`. -/
def zeroed_pipeline : svk_pipeline_t :=
  { pipeline := 0, layout := 0, desc_layout := 0, desc_set := 0,
    buffers := fun _ => none, images := fun _ => none,
    push_data := fun _ => 0, push_size := 0,
    output_image := none, workgroup_x := 0, workgroup_y := 0 }

/-- The C `svk_create_pipeline`: the returned handle (`none` is `NULL`) and the
native calls issued.  A handle field whose creating call failed keeps the zero
that `calloc` put there. -/
def svk_create_pipeline (ctx : Option svk_context_t) (shader : Option svk_shader_t)
    (native : CreatePipelineNative) : Option svk_pipeline_t × List VkCall :=
  match ctx, shader with
  | some c, some sh =>
    let pipe := { zeroed_pipeline with desc_layout := native.createDescriptorSetLayout.getD 0 }
    let pipe := { pipe with desc_set := native.allocateDescriptorSets.getD 0 }
    let pipe := { pipe with layout := native.createPipelineLayout.getD 0 }
    let calls :=
      [VkCall.vkCreateDescriptorSetLayout SVK_MAX_BINDINGS native.createDescriptorSetLayout,
       VkCall.vkAllocateDescriptorSets c.descriptor_pool pipe.desc_layout
         native.allocateDescriptorSets,
       VkCall.vkCreatePipelineLayout pipe.desc_layout 128 native.createPipelineLayout,
       VkCall.vkCreateComputePipelines sh.module pipe.layout native.createComputePipelines]
    match native.createComputePipelines with
    | none =>
      (none, calls ++ [VkCall.vkDestroyPipelineLayout pipe.layout,
                       VkCall.vkDestroyDescriptorSetLayout pipe.desc_layout])
    | some pl => (some { pipe with pipeline := pl }, calls)
  | _, _ => (none, [])

/-! ## Native objects made and released by a run -/

/-- A native object, by kind and handle. -/
inductive NativeObject where
  | vkInstance (h : Nat)
  | vkDevice (h : Nat)
  | commandPool (h : Nat)
  | descriptorPool (h : Nat)
  | buffer (h : Nat)
  | memory (h : Nat)
  | descriptorSetLayout (h : Nat)
  | descriptorSet (h : Nat)
  | pipelineLayout (h : Nat)
  | pipeline (h : Nat)
  | imageView (h : Nat)
  | image (h : Nat)
  deriving DecidableEq, Repr

/-- The native object a call brings into existence, if any (a failed creation
makes none). -/
def VkCall.created : VkCall → Option NativeObject
  | .vkCreateInstance r => r.map NativeObject.vkInstance
  | .vkCreateDevice _ _ r => r.map NativeObject.vkDevice
  | .vkCreateCommandPool _ r => r.map NativeObject.commandPool
  | .vkCreateDescriptorPool r => r.map NativeObject.descriptorPool
  | .vkCreateBuffer _ _ r => r.map NativeObject.buffer
  | .vkAllocateMemory _ _ r => r.map NativeObject.memory
  | .vkCreateDescriptorSetLayout _ r => r.map NativeObject.descriptorSetLayout
  | .vkAllocateDescriptorSets _ _ r => r.map NativeObject.descriptorSet
  | .vkCreatePipelineLayout _ _ r => r.map NativeObject.pipelineLayout
  | .vkCreateComputePipelines _ _ r => r.map NativeObject.pipeline
  | _ => none

/-- The native object a call destroys or frees, if any. -/
def VkCall.released : VkCall → Option NativeObject
  | .vkDestroyInstance h => some (NativeObject.vkInstance h)
  | .vkDestroyDevice h => some (NativeObject.vkDevice h)
  | .vkDestroyBuffer h => some (NativeObject.buffer h)
  | .vkFreeMemory h => some (NativeObject.memory h)
  | .vkDestroyDescriptorSetLayout h => some (NativeObject.descriptorSetLayout h)
  | .vkDestroyPipelineLayout h => some (NativeObject.pipelineLayout h)
  | .vkDestroyPipeline h => some (NativeObject.pipeline h)
  | .vkDestroyCommandPool h => some (NativeObject.commandPool h)
  | .vkDestroyDescriptorPool h => some (NativeObject.descriptorPool h)
  | .vkDestroyImageView h => some (NativeObject.imageView h)
  | .vkDestroyImage h => some (NativeObject.image h)
  | _ => none

/-- The native objects that a sequence of calls created and did not release. -/
def unreleased (calls : List VkCall) : List NativeObject :=
  (calls.filterMap VkCall.created).filter
    (fun o => !(calls.filterMap VkCall.released).contains o)

/-! ## Image readback -/

/-- The local `pixel_size` of `svk_download_image`. -/
def pixel_size (img : svk_image_t) : Nat :=
  if img.format = SVK_FORMAT_RGBA32F then 16 else 4

/-- The local `image_size` of `svk_download_image`:
`img->width * img->height * pixel_size`.  The two `uint32_t` operands are
multiplied first, in 32-bit arithmetic; that product is then widened and
multiplied by the `uint64_t` `pixel_size`. -/
def image_size (img : svk_image_t) : Nat :=
  ((img.width * img.height) % 2 ^ 32 * pixel_size img) % 2 ^ 64

/-- What the native API answers during `svk_download_image`.  `createBuffer`
and `allocateMemory` are the handles stored for the new staging buffer and its
memory (`none`: the call fails and writes no handle, so the field of the context
keeps the value it had, the handle just destroyed or freed);
`staged` is what the final `memcpy` finds behind `mapped`. -/
structure DownloadImageNative where
  createBuffer : Option Nat
  memReqSize : Nat
  memoryTypeBits : Nat
  memoryTypes : List Nat
  allocateMemory : Option Nat
  bindBufferMemory : Bool
  mapMemory : Bool
  staged : DeviceMemory

/-- The C `svk_download_image`: the return value, the context afterwards, the
caller's array afterwards and the native calls issued.  The code never clears
`staging_buffer` or `staging_memory`: each changes only when the native call
that creates it stores a new handle. -/
def svk_download_image (ctx : Option svk_context_t) (img : Option svk_image_t)
    (data : Option (List Nat)) (native : DownloadImageNative) :
    Int × Option svk_context_t × Option (List Nat) × List VkCall :=
  match ctx, img, data with
  | some c, some im, some d =>
    let image_size := image_size im
    let grown : svk_context_t × List VkCall :=
      if c.staging_size < image_size then
        let c1 := { c with
                    staging_buffer := native.createBuffer.getD c.staging_buffer
                    staging_memory := native.allocateMemory.getD c.staging_memory
                    staging_size := image_size }
        (c1,
         (if c.staging_buffer ≠ 0 then
            [VkCall.vkDestroyBuffer c.staging_buffer, VkCall.vkFreeMemory c.staging_memory]
          else []) ++
         [VkCall.vkCreateBuffer image_size VK_BUFFER_USAGE_TRANSFER_DST_BIT native.createBuffer,
          VkCall.vkAllocateMemory native.memReqSize
            (find_memory_type native.memoryTypes native.memoryTypeBits
              (VK_MEMORY_PROPERTY_HOST_VISIBLE_BIT ||| VK_MEMORY_PROPERTY_HOST_COHERENT_BIT))
            native.allocateMemory,
          VkCall.vkBindBufferMemory c1.staging_buffer c1.staging_memory
            native.bindBufferMemory])
      else (c, [])
    let c1 := grown.1
    (1, some c1, some (memcpy_from_device d native.staged 0 image_size),
     grown.2 ++
     [VkCall.vkAllocateCommandBuffers c1.command_pool,
      VkCall.vkBeginCommandBuffer,
      VkCall.vkCmdPipelineBarrier im.image,
      VkCall.vkCmdCopyImageToBuffer im.image c1.staging_buffer im.width im.height,
      VkCall.vkEndCommandBuffer,
      VkCall.vkQueueSubmit c1.compute_queue,
      VkCall.vkQueueWaitIdle c1.compute_queue,
      VkCall.vkFreeCommandBuffers c1.command_pool,
      VkCall.vkMapMemory c1.staging_memory 0 image_size native.mapMemory,
      VkCall.vkUnmapMemory c1.staging_memory])
  | _, _, _ => (0, ctx, data, [])

/-- A caller making successive `svk_download_image` calls on one context, one
per entry of the list (image, caller's array, native answers); gives the context
after the last call. -/
def download_images_from (c : svk_context_t) :
    List (svk_image_t × List Nat × DownloadImageNative) → svk_context_t
  | [] => c
  | (im, d, native) :: rest =>
    download_images_from
      ((svk_download_image (some c) (some im) (some d) native).2.1.getD c) rest

/-! ## Buffer size and release, teardown -/

/-- The C `svk_buffer_size`. -/
def svk_buffer_size (buf : Option svk_buffer_t) : Nat :=
  match buf with
  | some b => b.size
  | none => 0

/-- The C `svk_free_buffer`: the native calls issued, in program order. -/
def svk_free_buffer (ctx : Option svk_context_t) (buf : Option svk_buffer_t) : List VkCall :=
  match ctx, buf with
  | some _, some b => [VkCall.vkDestroyBuffer b.buffer, VkCall.vkFreeMemory b.memory]
  | _, _ => []

/-- The C `svk_free_image`: the native calls issued, in program order. -/
def svk_free_image (ctx : Option svk_context_t) (img : Option svk_image_t) : List VkCall :=
  match ctx, img with
  | some _, some im =>
    (if im.view ≠ 0 then [VkCall.vkDestroyImageView im.view] else []) ++
    [VkCall.vkFreeMemory im.memory, VkCall.vkDestroyImage im.image]
  | _, _ => []

/-- The C `svk_cleanup`: the native calls issued, in program order. -/
def svk_cleanup (ctx : Option svk_context_t) : List VkCall :=
  match ctx with
  | none => []
  | some c =>
    [VkCall.vkDeviceWaitIdle c.device] ++
    (if c.staging_buffer ≠ 0 then
       [VkCall.vkDestroyBuffer c.staging_buffer, VkCall.vkFreeMemory c.staging_memory]
     else []) ++
    (if c.descriptor_pool ≠ 0 then [VkCall.vkDestroyDescriptorPool c.descriptor_pool] else []) ++
    (if c.command_pool ≠ 0 then [VkCall.vkDestroyCommandPool c.command_pool] else []) ++
    (if c.device ≠ 0 then [VkCall.vkDestroyDevice c.device] else []) ++
    (if c.vk_instance ≠ 0 then [VkCall.vkDestroyInstance c.vk_instance] else [])

/-! ## Dispatch -/

/-- The descriptor-write loop of `svk_dispatch`, `for (i = 0; i < SVK_MAX_BINDINGS;
i++)`: the entries `writes[0 .. write_count - 1]` it has filled when it ends. -/
def svk_dispatch_writes (p : svk_pipeline_t) : List VkWriteDescriptorSet :=
  (List.finRange SVK_MAX_BINDINGS).foldl
    (fun writes i =>
      match p.buffers i with
      | some b =>
        writes ++ [{ dstSet := p.desc_set, dstBinding := i.val, descriptorCount := 1,
                     descriptorType := VK_DESCRIPTOR_TYPE_STORAGE_BUFFER,
                     buffer := b.buffer, offset := 0, range := b.size }]
      | none => writes)
    []

/-- What the native API answers during `svk_dispatch`: whether each call that
returns a `VkResult` returns `VK_SUCCESS`.  The C code discards every one of
these results. -/
structure DispatchNative where
  allocateCommandBuffers : Bool
  beginCommandBuffer : Bool
  endCommandBuffer : Bool
  queueSubmit : Bool
  queueWaitIdle : Bool
  deriving DecidableEq, Repr

/-- The C `svk_dispatch`: the return value and the native calls issued.
`vkCmdPushConstants` is given `push_size` bytes starting at `push_data`. -/
def svk_dispatch (ctx : Option svk_context_t) (pipe : Option svk_pipeline_t) (x y z : Nat)
    (_native : DispatchNative) : Int × List VkCall :=
  match ctx, pipe with
  | some c, some p =>
    let writes := svk_dispatch_writes p
    (1,
     [VkCall.vkAllocateCommandBuffers c.command_pool,
      VkCall.vkBeginCommandBuffer,
      VkCall.vkCmdBindPipeline p.pipeline] ++
     (if writes.length > 0 then [VkCall.vkUpdateDescriptorSets writes] else []) ++
     [VkCall.vkCmdBindDescriptorSets p.layout p.desc_set] ++
     (if p.push_size > 0 then
        [VkCall.vkCmdPushConstants p.layout p.push_size
          ((List.ofFn p.push_data).take p.push_size)]
      else []) ++
     [VkCall.vkCmdDispatch x y z,
      VkCall.vkEndCommandBuffer,
      VkCall.vkQueueSubmit c.compute_queue,
      VkCall.vkQueueWaitIdle c.compute_queue,
      VkCall.vkFreeCommandBuffers c.command_pool])
  | _, _ => (0, [])

/-- The descriptor writes of a native call, when it is a descriptor-set update. -/
def VkCall.descriptorWrites : VkCall → Option (List VkWriteDescriptorSet)
  | .vkUpdateDescriptorSets writes => some writes
  | _ => none

/-- The byte count and bytes of a native call, when it pushes constants. -/
def VkCall.pushedConstants : VkCall → Option (Nat × List Nat)
  | .vkCmdPushConstants _ size values => some (size, values)
  | _ => none

/-- The descriptor write that the specification asks for slot `i` holding `b`:
storage-buffer type, destination binding `i`, offset 0, range the declared size
of `b`. -/
def spec_slot_write (p : svk_pipeline_t) (i : Fin SVK_MAX_BINDINGS) (b : svk_buffer_t) :
    VkWriteDescriptorSet :=
  { dstSet := p.desc_set, dstBinding := i.val, descriptorCount := 1,
    descriptorType := VK_DESCRIPTOR_TYPE_STORAGE_BUFFER,
    buffer := b.buffer, offset := 0, range := b.size }

/-- Position of a call in the teardown order that `svk_cleanup` follows: wait,
staging buffer, staging memory, descriptor pool, command pool, device,
instance. -/
def cleanup_stage : VkCall → Nat
  | .vkDeviceWaitIdle _ => 0
  | .vkDestroyBuffer _ => 1
  | .vkFreeMemory _ => 2
  | .vkDestroyDescriptorPool _ => 3
  | .vkDestroyCommandPool _ => 4
  | .vkDestroyDevice _ => 5
  | .vkDestroyInstance _ => 6
  | _ => 7

/-! ## Predicates used in the statements -/

/-- The context `c` carries the selection record of device `d`: its handle, its
first compute queue family, and the metadata `svk_init` copies from its
properties. -/
def RecordsDevice (c : svk_context_t) (d : PhysicalDevice) : Prop :=
  c.physical_device = d.handle ∧
  find_compute_queue_family d = some c.compute_queue_family ∧
  c.device_name = d.props.deviceName.take 255 ∧
  c.vendor_id = d.props.vendorID ∧
  c.is_discrete = (if d.props.deviceType = VK_PHYSICAL_DEVICE_TYPE_DISCRETE_GPU then 1 else 0) ∧
  c.max_workgroup_size = d.props.maxComputeWorkGroupInvocations

/-- State of the selection loop of `svk_init` after the devices `done`: either
nothing was selected and no device of `done` has a compute queue family, or the
selected device is the first of `done` whose score is maximal among those with a
compute queue family. -/
def SelectInv (ctx0 : svk_context_t) (done : List PhysicalDevice)
    (st : Int × svk_context_t) : Prop :=
  (st.1 = -1 ∧ st.2 = ctx0 ∧ ∀ x ∈ done, find_compute_queue_family x = none) ∨
  (∃ pre d post, done = pre ++ d :: post ∧
    (find_compute_queue_family d).isSome ∧
    st.1 = device_score d.props ∧ RecordsDevice st.2 d ∧
    (∀ x ∈ pre, (find_compute_queue_family x).isSome →
      device_score x.props < device_score d.props) ∧
    (∀ x ∈ post, (find_compute_queue_family x).isSome →
      device_score x.props ≤ device_score d.props))

/-! ## Sample inputs -/

/-- A context whose fields are all zero except the handles given. -/
def sample_context : svk_context_t :=
  { zeroed_context with vk_instance := 1, physical_device := 2, device := 3,
                        compute_queue := 4, command_pool := 5, descriptor_pool := 6 }

/-- The buffer struct with native handles `h` and `h + 1`, of declared size
`size`, created as a storage buffer. -/
def sample_buffer (h size : Nat) : svk_buffer_t :=
  { buffer := h, memory := h + 1, size := size, usage := SVK_BUFFER_STORAGE }

/-- An integrated GPU with one graphics-and-compute queue family. -/
def sample_integrated : PhysicalDevice :=
  { handle := 10
    props := { deviceType := VK_PHYSICAL_DEVICE_TYPE_INTEGRATED_GPU, vendorID := 0x8086,
               deviceName := [73, 71, 80], maxComputeWorkGroupInvocations := 256 }
    queueFlags := [3] }

/-- A discrete GPU whose second queue family is the first with the compute bit. -/
def sample_discrete : PhysicalDevice :=
  { handle := 20
    props := { deviceType := VK_PHYSICAL_DEVICE_TYPE_DISCRETE_GPU, vendorID := 0x10DE,
               deviceName := [68, 71, 80], maxComputeWorkGroupInvocations := 1024 }
    queueFlags := [4, 2] }

/-- A discrete GPU none of whose queue families has the compute bit. -/
def sample_no_compute : PhysicalDevice :=
  { handle := 30
    props := { deviceType := VK_PHYSICAL_DEVICE_TYPE_DISCRETE_GPU, vendorID := 0x1002,
               deviceName := [88], maxComputeWorkGroupInvocations := 64 }
    queueFlags := [1, 4] }

/-- Native answers for `svk_init` in which every creation succeeds, over the
given enumeration. -/
def sample_init_native (devices : List PhysicalDevice) : InitNative :=
  { createInstance := some 1, devices := devices, createDevice := some 3, deviceQueue := 4,
    createCommandPool := some 5, createDescriptorPool := some 6 }

/-- Native answers for `svk_create_buffer`: buffer 7 and memory 9 are made, the
device has a device-local memory type and a host-visible, host-coherent one,
and `vkBindBufferMemory` fails. -/
def sample_bind_fails : CreateBufferNative :=
  { createBuffer := some 7, memReqSize := 64, memoryTypeBits := 3, memoryTypes := [1, 6],
    allocateMemory := some 9, bindBufferMemory := false }

/-- Native answers for `svk_create_buffer`: the device has only a device-local
memory type, and the other native calls succeed. -/
def sample_no_host_memory_type : CreateBufferNative :=
  { createBuffer := some 7, memReqSize := 64, memoryTypeBits := 1, memoryTypes := [1],
    allocateMemory := some 9, bindBufferMemory := true }

/-- A 65536 by 65536 image in the 32-bit-float format. -/
def sample_wide_image : svk_image_t :=
  { image := 31, memory := 32, view := 33, width := 65536, height := 65536,
    format := SVK_FORMAT_RGBA32F }

/-- A 65537 by 65536 image in the 8-bit format. -/
def sample_wide_image8 : svk_image_t :=
  { image := 31, memory := 32, view := 33, width := 65537, height := 65536,
    format := SVK_FORMAT_RGBA8 }

/-- Native answers for `svk_download_image`: every call succeeds, the new
staging buffer and memory get handles 40 and 41, and the staging memory reads as
the byte 9 everywhere. -/
def sample_download_native : DownloadImageNative :=
  { createBuffer := some 40, memReqSize := 64, memoryTypeBits := 3, memoryTypes := [1, 6],
    allocateMemory := some 41, bindBufferMemory := true, mapMemory := true,
    staged := fun _ => 9 }

/-- A 4 by 4 image in the 32-bit-float format (256 bytes). -/
def sample_image_4x4 : svk_image_t :=
  { image := 51, memory := 52, view := 53, width := 4, height := 4,
    format := SVK_FORMAT_RGBA32F }

/-- An 8 by 8 image in the 32-bit-float format (1024 bytes). -/
def sample_image_8x8 : svk_image_t :=
  { image := 61, memory := 62, view := 63, width := 8, height := 8,
    format := SVK_FORMAT_RGBA32F }

/-- Native answers for `svk_create_buffer`: every call succeeds and the memory
requirement (64 bytes) is larger than a small request. -/
def sample_create_ok : CreateBufferNative :=
  { createBuffer := some 7, memReqSize := 64, memoryTypeBits := 3, memoryTypes := [1, 6],
    allocateMemory := some 9, bindBufferMemory := true }

/-- A pipeline with buffers bound at slots 1 and 4 and nothing pushed. -/
def sample_bound_pipeline : svk_pipeline_t :=
  { zeroed_pipeline with
    pipeline := 14, layout := 13, desc_layout := 11, desc_set := 12,
    buffers := fun i =>
      if i.val = 1 then some (sample_buffer 70 16)
      else if i.val = 4 then some (sample_buffer 80 32)
      else none }

/-- Native answers for `svk_dispatch` in which every call fails. -/
def sample_dispatch_all_fail : DispatchNative :=
  { allocateCommandBuffers := false, beginCommandBuffer := false, endCommandBuffer := false,
    queueSubmit := false, queueWaitIdle := false }

/-! # Theorems -/

/-! ## Buffer transfer -/

/-- When the sum `offset + size` does not wrap around 64 bits and exceeds the
declared size, upload and download are rejected without any native call and
without touching device memory or the caller's array. -/
theorem svk_transfer_rejects_unwrapped_overrun (ctx : Option svk_context_t)
    (b : svk_buffer_t) (data : Option (List Nat)) (size offset : Nat) (mapOk : Bool)
    (mem : DeviceMemory) (hfit : offset + size < 2 ^ 64) (hover : b.size < offset + size) :
    svk_upload_buffer ctx (some b) data size offset mapOk mem = (0, mem, []) ∧
    svk_download_buffer ctx (some b) data size offset mapOk mem = (0, data, []) := by
  have hgt : (offset + size) % 2 ^ 64 > b.size := by
    rw [Nat.mod_eq_of_lt hfit]; exact hover
  constructor
  · cases ctx <;> cases data <;> simp only [svk_upload_buffer, if_pos hgt]
  · cases ctx <;> cases data <;> simp only [svk_download_buffer, if_pos hgt]

/-- C1 (evaluation at the failing input): on a buffer of declared size 4, with
offset `2 ^ 64 - 1` and size 2 the true sum `2 ^ 64 + 1` exceeds 4, yet the
64-bit sum in the range check is 1, so neither call is rejected: each issues
`vkMapMemory`, and when the mapping succeeds each returns 1 and copies. -/
theorem svk_transfer_wrapped_sum_is_not_rejected :
    (2 ^ 64 - 1) + 2 > (4 : Nat) ∧
    (∀ mapOk mem,
      (svk_upload_buffer (some sample_context) (some ⟨7, 9, 4, 1⟩) (some [170, 187]) 2
          (2 ^ 64 - 1) mapOk mem).2.2 ≠ [] ∧
      (svk_download_buffer (some sample_context) (some ⟨7, 9, 4, 1⟩) (some [170, 187]) 2
          (2 ^ 64 - 1) mapOk mem).2.2 ≠ []) ∧
    (svk_upload_buffer (some sample_context) (some ⟨7, 9, 4, 1⟩) (some [170, 187]) 2
        (2 ^ 64 - 1) true (fun _ => 0)).1 = 1 ∧
    (svk_upload_buffer (some sample_context) (some ⟨7, 9, 4, 1⟩) (some [170, 187]) 2
        (2 ^ 64 - 1) true (fun _ => 0)).2.1 (2 ^ 64) = 187 ∧
    (svk_upload_buffer (some sample_context) (some ⟨7, 9, 4, 1⟩) (some [170, 187]) 2
        (2 ^ 64 - 1) true (fun _ => 0)).2.2 =
      [VkCall.vkMapMemory 9 (2 ^ 64 - 1) 2 true, VkCall.vkUnmapMemory 9] ∧
    svk_download_buffer (some sample_context) (some ⟨7, 9, 4, 1⟩) (some [170, 187]) 2
        (2 ^ 64 - 1) true (fun _ => 5) =
      (1, some [5, 5], [VkCall.vkMapMemory 9 (2 ^ 64 - 1) 2 true, VkCall.vkUnmapMemory 9]) := by
  refine ⟨by decide, ?_, ?_, ?_, ?_, ?_⟩
  · intro mapOk mem
    cases mapOk <;> simp [svk_upload_buffer, svk_download_buffer]
  · simp [svk_upload_buffer]
  · simp [svk_upload_buffer, memcpy_to_device]
  · simp [svk_upload_buffer]
  · simp [svk_download_buffer, memcpy_from_device, List.range_succ]

/-- Reading back what `memcpy_to_device` wrote gives the written bytes. -/
theorem memcpy_roundtrip (mem : DeviceMemory) (offset : Nat) (S rest : List Nat) :
    memcpy_from_device rest (memcpy_to_device mem offset S S.length) offset S.length =
      S ++ rest.drop S.length := by
  unfold memcpy_from_device memcpy_to_device
  congr 1
  apply List.ext_getElem
  · simp
  · intro i h1 h2
    simp at h1
    simp [h1, h2]

/-- C2: for a buffer of declared size `B` and a byte sequence `S` with
`1 ≤ |S| ≤ B`, when the mappings succeed, uploading `S` at offset 0 returns 1,
and downloading `|S|` bytes from offset 0 afterwards returns 1 and puts exactly
`S` in the first `|S|` places of the caller's array, leaving the rest of that
array as it was. -/
theorem svk_upload_download_roundtrip (c : svk_context_t) (b : svk_buffer_t)
    (S dest : List Nat) (mem : DeviceMemory)
    (_hpos : 1 ≤ S.length) (hfit : S.length ≤ b.size) :
    let up := svk_upload_buffer (some c) (some b) (some S) S.length 0 true mem
    let down := svk_download_buffer (some c) (some b) (some dest) S.length 0 true up.2.1
    up.1 = 1 ∧ down.1 = 1 ∧
    ∃ out, down.2.1 = some out ∧ out.take S.length = S ∧
      out.drop S.length = dest.drop S.length := by
  have hguard : ¬ ((0 + S.length) % 2 ^ 64 > b.size) := by
    have := Nat.mod_le (0 + S.length) (2 ^ 64)
    omega
  simp only [svk_upload_buffer, svk_download_buffer, hguard, if_false, Bool.not_true]
  refine ⟨by simp, by simp, S ++ dest.drop S.length, ?_, by simp, by simp⟩
  simp [memcpy_roundtrip]

/-- C2 witness: the three bytes 1, 2, 3 through a 4-byte buffer. -/
theorem svk_upload_download_roundtrip_witness :
    let up := svk_upload_buffer (some sample_context) (some ⟨7, 9, 4, 1⟩) (some [1, 2, 3])
      [1, 2, 3].length 0 true (fun _ => 0)
    let down := svk_download_buffer (some sample_context) (some ⟨7, 9, 4, 1⟩)
      (some [0, 0, 0]) [1, 2, 3].length 0 true up.2.1
    up.1 = 1 ∧ down.1 = 1 ∧
    ∃ out, down.2.1 = some out ∧ out.take [1, 2, 3].length = [1, 2, 3] ∧
      out.drop [1, 2, 3].length = [0, 0, 0].drop [1, 2, 3].length :=
  svk_upload_download_roundtrip sample_context ⟨7, 9, 4, 1⟩ [1, 2, 3] [0, 0, 0] (fun _ => 0)
    (by decide) (by decide)

/-! ## Pipeline binding state -/

/-- C3: `svk_bind_buffer` with a binding index of at least `SVK_MAX_BINDINGS`
(8) returns 0, issues no native call and leaves the pipeline exactly as it was,
whatever the pipeline and the buffer; in particular nine successive binds at
slots 0 to 8 return 1 eight times and then 0, and afterwards slots 0 to 7 hold
the first eight buffers. -/
theorem svk_bind_buffer_rejects_index_out_of_range (pipe : Option svk_pipeline_t)
    (binding : Nat) (buf : Option svk_buffer_t) (h : binding ≥ SVK_MAX_BINDINGS) :
    svk_bind_buffer pipe binding buf = (0, pipe, []) ∧
    ∀ (p : svk_pipeline_t) (b0 b1 b2 b3 b4 b5 b6 b7 b8 : svk_buffer_t),
      (bind_buffers_from p 0 [b0, b1, b2, b3, b4, b5, b6, b7, b8]).1
          = [1, 1, 1, 1, 1, 1, 1, 1, 0] ∧
      (bind_buffers_from p 0 [b0, b1, b2, b3, b4, b5, b6, b7, b8]).2
          = (bind_buffers_from p 0 [b0, b1, b2, b3, b4, b5, b6, b7]).2 ∧
      ∀ i : Fin 8,
        (bind_buffers_from p 0 [b0, b1, b2, b3, b4, b5, b6, b7, b8]).2.buffers i
          = [b0, b1, b2, b3, b4, b5, b6, b7][i.val]? := by
  constructor
  · cases pipe <;> cases buf <;> simp [svk_bind_buffer, h]
  · intro p b0 b1 b2 b3 b4 b5 b6 b7 b8
    refine ⟨?_, ?_, ?_⟩
    · simp [bind_buffers_from, svk_bind_buffer, SVK_MAX_BINDINGS]
    · simp [bind_buffers_from, svk_bind_buffer, SVK_MAX_BINDINGS]
    · intro i
      fin_cases i <;>
        simp [bind_buffers_from, svk_bind_buffer, SVK_MAX_BINDINGS, Function.update]

/-- C3 witness: a bind at index 8 on a fresh pipeline. -/
theorem svk_bind_buffer_rejects_index_out_of_range_witness :
    svk_bind_buffer (some zeroed_pipeline) 8 (some (sample_buffer 7 16))
      = (0, some zeroed_pipeline, []) :=
  (svk_bind_buffer_rejects_index_out_of_range (some zeroed_pipeline) 8
    (some (sample_buffer 7 16)) (by decide)).1

/-- C4: `svk_set_push_constants` with a size above 128 returns 0, issues no
native call and leaves the pipeline, so its scratch bytes and its push size,
exactly as it was, whatever the pipeline and the payload. -/
theorem svk_set_push_constants_rejects_oversize (pipe : Option svk_pipeline_t)
    (data : Option (List Nat)) (size : Nat) (h : size > 128) :
    svk_set_push_constants pipe data size = (0, pipe, []) := by
  cases pipe <;> cases data <;> simp [svk_set_push_constants, h]

/-- C4 witness: a payload of 129 bytes on a fresh pipeline. -/
theorem svk_set_push_constants_rejects_oversize_witness :
    svk_set_push_constants (some zeroed_pipeline) (some (List.replicate 129 255)) 129
      = (0, some zeroed_pipeline, []) :=
  svk_set_push_constants_rejects_oversize (some zeroed_pipeline)
    (some (List.replicate 129 255)) 129 (by decide)

/-- C5: on a pipeline `p`, with a non-null buffer `b` and a binding index below
8, `svk_bind_buffer` returns 1 and issues no native call; afterwards slot
`binding` holds `b`, every other buffer slot, every image slot, the push
constant bytes and the push size are as before, and so are the native handles of
the pipeline, the descriptor set among them. -/
theorem svk_bind_buffer_frame (p : svk_pipeline_t) (b : svk_buffer_t) (binding : Nat)
    (h : binding < SVK_MAX_BINDINGS) :
    ∃ q, svk_bind_buffer (some p) binding (some b) = (1, some q, []) ∧
      q.buffers ⟨binding, h⟩ = some b ∧
      (∀ j : Fin SVK_MAX_BINDINGS, j.val ≠ binding → q.buffers j = p.buffers j) ∧
      q.images = p.images ∧ q.push_data = p.push_data ∧ q.push_size = p.push_size ∧
      q.desc_set = p.desc_set ∧ q.desc_layout = p.desc_layout ∧ q.layout = p.layout ∧
      q.pipeline = p.pipeline ∧ q.output_image = p.output_image ∧
      q.workgroup_x = p.workgroup_x ∧ q.workgroup_y = p.workgroup_y := by
  have hn : ¬ binding ≥ SVK_MAX_BINDINGS := by omega
  refine ⟨{ p with buffers := Function.update p.buffers ⟨binding, h⟩ (some b) }, ?_, ?_, ?_,
    rfl, rfl, rfl, rfl, rfl, rfl, rfl, rfl, rfl, rfl⟩
  · simp [svk_bind_buffer, hn]
  · simp
  · intro j hj
    have hne : j ≠ ⟨binding, h⟩ := fun e => hj (by rw [e])
    simp [Function.update, hne]

/-- C5 witness: binding a buffer at slot 3 of a fresh pipeline. -/
theorem svk_bind_buffer_frame_witness :
    ∃ q, svk_bind_buffer (some zeroed_pipeline) 3 (some (sample_buffer 7 16))
        = (1, some q, []) ∧
      q.buffers ⟨3, by decide⟩ = some (sample_buffer 7 16) ∧
      (∀ j : Fin SVK_MAX_BINDINGS, j.val ≠ 3 → q.buffers j = zeroed_pipeline.buffers j) ∧
      q.images = zeroed_pipeline.images ∧ q.push_data = zeroed_pipeline.push_data ∧
      q.push_size = zeroed_pipeline.push_size ∧
      q.desc_set = zeroed_pipeline.desc_set ∧ q.desc_layout = zeroed_pipeline.desc_layout ∧
      q.layout = zeroed_pipeline.layout ∧
      q.pipeline = zeroed_pipeline.pipeline ∧ q.output_image = zeroed_pipeline.output_image ∧
      q.workgroup_x = zeroed_pipeline.workgroup_x ∧
      q.workgroup_y = zeroed_pipeline.workgroup_y :=
  svk_bind_buffer_frame zeroed_pipeline (sample_buffer 7 16) 3 (by decide)

/-! ## Device selection -/

/-- The score of a device is never negative, so it beats the initial
`best_score = -1`. -/
theorem device_score_nonneg (p : VkPhysicalDeviceProperties) : 0 ≤ device_score p := by
  unfold device_score
  split_ifs <;> decide

/-- The scores 1000, 100 and 0 order devices strictly as the class ranks do. -/
theorem device_score_lt_iff (a b : PhysicalDevice) :
    device_score a.props < device_score b.props ↔ spec_class_rank a < spec_class_rank b := by
  unfold device_score spec_class_rank
  split_ifs <;> simp

/-- The scores 1000, 100 and 0 order devices weakly as the class ranks do. -/
theorem device_score_le_iff (a b : PhysicalDevice) :
    device_score a.props ≤ device_score b.props ↔ spec_class_rank a ≤ spec_class_rank b := by
  unfold device_score spec_class_rank
  split_ifs <;> simp

/-- One iteration of the selection loop keeps `SelectInv`. -/
theorem selectInv_step (ctx0 : svk_context_t) (done : List PhysicalDevice)
    (st : Int × svk_context_t) (x : PhysicalDevice) (h : SelectInv ctx0 done st) :
    SelectInv ctx0 (done ++ [x]) (svk_init_select_step st x) := by
  unfold svk_init_select_step
  cases hx : find_compute_queue_family x with
  | none =>
    simp only
    rcases h with ⟨h1, h2, h3⟩ | ⟨pre, d, post, hd, hc, hs, hr, hpre, hpost⟩
    · left
      refine ⟨h1, h2, ?_⟩
      intro y hy
      rcases List.mem_append.mp hy with hy | hy
      · exact h3 y hy
      · rw [List.mem_singleton.mp hy]; exact hx
    · right
      refine ⟨pre, d, post ++ [x], by simp [hd], hc, hs, hr, hpre, ?_⟩
      intro y hy hcy
      rcases List.mem_append.mp hy with hy | hy
      · exact hpost y hy hcy
      · rw [List.mem_singleton.mp hy, hx] at hcy; cases hcy
  | some family =>
    simp only
    rcases h with ⟨h1, _, h3⟩ | ⟨pre, d, post, hd, hc, hs, hr, hpre, hpost⟩
    · have hgt : device_score x.props > st.1 := by
        have := device_score_nonneg x.props
        omega
      rw [if_pos hgt]
      right
      refine ⟨done, x, [], rfl, by simp [hx], rfl, ⟨rfl, hx, rfl, rfl, rfl, rfl⟩, ?_, by simp⟩
      intro y hy hcy
      rw [h3 y hy] at hcy; cases hcy
    · by_cases hgt : device_score x.props > st.1
      · rw [if_pos hgt]
        right
        refine ⟨done, x, [], rfl, by simp [hx], rfl, ⟨rfl, hx, rfl, rfl, rfl, rfl⟩, ?_, by simp⟩
        intro y hy hcy
        rw [hd] at hy
        rcases List.mem_append.mp hy with hy | hy
        · have := hpre y hy hcy; omega
        · rcases List.mem_cons.mp hy with hy | hy
          · rw [hy]; omega
          · have := hpost y hy hcy; omega
      · rw [if_neg hgt]
        right
        refine ⟨pre, d, post ++ [x], by simp [hd], hc, hs, hr, hpre, ?_⟩
        intro y hy hcy
        rcases List.mem_append.mp hy with hy | hy
        · exact hpost y hy hcy
        · rw [List.mem_singleton.mp hy]; omega

/-- Running the selection loop over further devices keeps `SelectInv`. -/
theorem selectInv_foldl (ctx0 : svk_context_t) (rest : List PhysicalDevice) :
    ∀ (done : List PhysicalDevice) (st : Int × svk_context_t), SelectInv ctx0 done st →
      SelectInv ctx0 (done ++ rest) (rest.foldl svk_init_select_step st) := by
  induction rest with
  | nil => intro done st h; simpa using h
  | cons x rest ih =>
    intro done st h
    have := ih (done ++ [x]) (svk_init_select_step st x) (selectInv_step ctx0 done st x h)
    simpa using this

/-- The selection loop of `svk_init` establishes `SelectInv` for the whole
enumeration. -/
theorem selectInv_select (devices : List PhysicalDevice) (ctx0 : svk_context_t) :
    SelectInv ctx0 devices (svk_init_select devices ctx0) := by
  have := selectInv_foldl ctx0 devices [] (-1, ctx0) (Or.inl ⟨rfl, rfl, by simp⟩)
  simpa [svk_init_select] using this

/-- A context returned by `svk_init` is the state of the selection loop, run on
the zeroed context holding the new instance, with the device, queue and pools
filled in; the loop ended with a score that is not negative. -/
theorem svk_init_some (native : InitNative) (ctx : svk_context_t)
    (h : (svk_init native).1 = some ctx) :
    ∃ inst dev pool dpool,
      ¬ (svk_init_select native.devices { zeroed_context with vk_instance := inst }).1 < 0 ∧
      ctx = { (svk_init_select native.devices { zeroed_context with vk_instance := inst }).2 with
              device := dev, compute_queue := native.deviceQueue,
              command_pool := pool, descriptor_pool := dpool } := by
  unfold svk_init at h
  cases hi : native.createInstance with
  | none => simp [hi] at h
  | some inst =>
    simp only [hi] at h
    by_cases hl : native.devices.length = 0
    · simp [hl] at h
    · rw [if_neg hl] at h
      by_cases hb :
          (svk_init_select native.devices { zeroed_context with vk_instance := inst }).1 < 0
      · simp [hb] at h
      · simp only [hb, if_false] at h
        cases hd : native.createDevice with
        | none => simp [hd] at h
        | some dev =>
          simp only [hd] at h
          cases hp : native.createCommandPool with
          | none => simp [hp] at h
          | some pool =>
            simp only [hp, Option.some.injEq] at h
            exact ⟨inst, dev, pool, native.createDescriptorPool.getD 0, hb, h.symm⟩

/-- C6: when at least one enumerated device has a compute queue family, the
enumeration splits as `pre ++ d :: post` where `d` has a compute queue family,
every device of `pre` with one has a strictly lower class rank and every device
of `post` with one has a class rank that is not higher (discrete above
integrated above the rest): `d` is the first-enumerated device of maximal rank.
The selection loop records `d`, every context that `svk_init` returns carries
the handle, is_discrete flag, vendor id and max workgroup size of `d`, and
`svk_init` does return a context when the native creations succeed.  With one
integrated and one discrete device, in either order, `d` is the discrete
one. -/
theorem svk_init_selects_first_of_best_class (native : InitNative)
    (h : ∃ x ∈ native.devices, (find_compute_queue_family x).isSome) :
    ∃ pre d post, native.devices = pre ++ d :: post ∧
      (find_compute_queue_family d).isSome ∧
      (∀ x ∈ pre, (find_compute_queue_family x).isSome →
        spec_class_rank x < spec_class_rank d) ∧
      (∀ x ∈ post, (find_compute_queue_family x).isSome →
        spec_class_rank x ≤ spec_class_rank d) ∧
      (∀ ctx0, RecordsDevice (svk_init_select native.devices ctx0).2 d) ∧
      (∀ ctx, (svk_init native).1 = some ctx →
        ctx.physical_device = d.handle ∧
        ctx.is_discrete =
          (if d.props.deviceType = VK_PHYSICAL_DEVICE_TYPE_DISCRETE_GPU then 1 else 0) ∧
        ctx.vendor_id = d.props.vendorID ∧
        ctx.max_workgroup_size = d.props.maxComputeWorkGroupInvocations) ∧
      (native.createInstance.isSome → native.createDevice.isSome →
        native.createCommandPool.isSome → (svk_init native).1.isSome) ∧
      (∀ a b, (native.devices = [a, b] ∨ native.devices = [b, a]) →
        a.props.deviceType = VK_PHYSICAL_DEVICE_TYPE_INTEGRATED_GPU →
        b.props.deviceType = VK_PHYSICAL_DEVICE_TYPE_DISCRETE_GPU →
        (find_compute_queue_family a).isSome → (find_compute_queue_family b).isSome →
        d = b) := by
  obtain ⟨x0, hx0, hc0⟩ := h
  -- the invariant on the zeroed context yields the split
  rcases selectInv_select native.devices zeroed_context with
    ⟨_, _, h3⟩ | ⟨pre, d, post, hd, hc, _, _, hpre, hpost⟩
  · rw [h3 x0 hx0] at hc0; cases hc0
  have hrec : ∀ ctx0, RecordsDevice (svk_init_select native.devices ctx0).2 d ∧
      ¬ (svk_init_select native.devices ctx0).1 < 0 := by
    intro ctx0
    rcases selectInv_select native.devices ctx0 with
      ⟨_, _, h3⟩ | ⟨pre2, d2, post2, hd2, hc2, hs2, hr2, hpre2, hpost2⟩
    · rw [h3 x0 hx0] at hc0; cases hc0
    · have hnn : ¬ (svk_init_select native.devices ctx0).1 < 0 := by
        have := device_score_nonneg d2.props
        omega
      -- both splits single out the same position
      have hsame : pre2 = pre ∧ d2 = d := by
        have hsplit : pre2 ++ d2 :: post2 = pre ++ d :: post := by rw [← hd2, ← hd]
        rcases List.append_eq_append_iff.mp hsplit with ⟨as, h1, h2⟩ | ⟨as, h1, h2⟩
        · cases as with
          | nil =>
            simp at h1 h2
            exact ⟨h1.symm, h2.1⟩
          | cons y ys =>
            simp at h2
            obtain ⟨hy, hys⟩ := h2
            have hdpre : d2 ∈ pre := by rw [h1, ← hy]; simp
            have hdpost : d ∈ post2 := by rw [hys]; simp
            have := hpre d2 hdpre hc2
            have := hpost2 d hdpost hc
            omega
        · cases as with
          | nil =>
            simp at h1 h2
            exact ⟨h1, h2.1.symm⟩
          | cons y ys =>
            simp at h2
            obtain ⟨hy, hys⟩ := h2
            have hdpre : d ∈ pre2 := by rw [h1, ← hy]; simp
            have hdpost : d2 ∈ post := by rw [hys]; simp
            have := hpre2 d hdpre hc
            have := hpost d2 hdpost hc2
            omega
      rw [← hsame.2]
      exact ⟨hr2, hnn⟩
  refine ⟨pre, d, post, hd, hc, ?_, ?_, fun ctx0 => (hrec ctx0).1, ?_, ?_, ?_⟩
  · intro x hx hcx
    exact (device_score_lt_iff x d).mp (hpre x hx hcx)
  · intro x hx hcx
    exact (device_score_le_iff x d).mp (hpost x hx hcx)
  · intro ctx hctx
    obtain ⟨inst, dev, pool, dpool, _, hEq⟩ := svk_init_some native ctx hctx
    obtain ⟨r1, _, _, r4, r5, r6⟩ :=
      (hrec { zeroed_context with vk_instance := inst }).1
    subst hEq
    exact ⟨r1, r5, r4, r6⟩
  · intro hi hdv hp
    obtain ⟨inst, hi⟩ := Option.isSome_iff_exists.mp hi
    obtain ⟨dev, hdv⟩ := Option.isSome_iff_exists.mp hdv
    obtain ⟨pool, hp⟩ := Option.isSome_iff_exists.mp hp
    have hl : ¬ native.devices.length = 0 := by
      intro h0
      rw [List.length_eq_zero] at h0
      rw [h0] at hx0
      cases hx0
    have hb := (hrec { zeroed_context with vk_instance := inst }).2
    simp [svk_init, hi, hdv, hp, hl, hb]
  · intro a b hab ha hb hca hcb
    have hrank : spec_class_rank a < spec_class_rank b := by
      simp [spec_class_rank, ha, hb, VK_PHYSICAL_DEVICE_TYPE_DISCRETE_GPU,
        VK_PHYSICAL_DEVICE_TYPE_INTEGRATED_GPU]
    have hpre' := fun x hx hcx => (device_score_lt_iff x d).mp (hpre x hx hcx)
    have hpost' := fun x hx hcx => (device_score_le_iff x d).mp (hpost x hx hcx)
    rcases hab with hab | hab
    · rw [hab] at hd
      rcases pre with _ | ⟨p1, _ | ⟨p2, pre⟩⟩
      · simp at hd
        have := hpost' b (by rw [← hd.2]; simp) hcb
        rw [← hd.1] at this
        omega
      · simp at hd
        exact hd.2.1.symm
      · simp at hd
    · rw [hab] at hd
      rcases pre with _ | ⟨p1, _ | ⟨p2, pre⟩⟩
      · simp at hd
        exact hd.1.symm
      · simp at hd
        have := hpre' p1 (by simp) (by rw [← hd.1]; exact hcb)
        rw [← hd.1, ← hd.2.1] at this
        omega
      · simp at hd

/-- C6 witness: an integrated device enumerated before a discrete one. -/
theorem svk_init_selects_first_of_best_class_witness :
    ∃ pre d post,
      (sample_init_native [sample_integrated, sample_discrete]).devices = pre ++ d :: post ∧
      (find_compute_queue_family d).isSome ∧
      (∀ x ∈ pre, (find_compute_queue_family x).isSome →
        spec_class_rank x < spec_class_rank d) ∧
      (∀ x ∈ post, (find_compute_queue_family x).isSome →
        spec_class_rank x ≤ spec_class_rank d) ∧
      (∀ ctx0, RecordsDevice
        (svk_init_select (sample_init_native [sample_integrated, sample_discrete]).devices
          ctx0).2 d) ∧
      (∀ ctx, (svk_init (sample_init_native [sample_integrated, sample_discrete])).1 = some ctx →
        ctx.physical_device = d.handle ∧
        ctx.is_discrete =
          (if d.props.deviceType = VK_PHYSICAL_DEVICE_TYPE_DISCRETE_GPU then 1 else 0) ∧
        ctx.vendor_id = d.props.vendorID ∧
        ctx.max_workgroup_size = d.props.maxComputeWorkGroupInvocations) ∧
      ((sample_init_native [sample_integrated, sample_discrete]).createInstance.isSome →
        (sample_init_native [sample_integrated, sample_discrete]).createDevice.isSome →
        (sample_init_native [sample_integrated, sample_discrete]).createCommandPool.isSome →
        (svk_init (sample_init_native [sample_integrated, sample_discrete])).1.isSome) ∧
      (∀ a b,
        ((sample_init_native [sample_integrated, sample_discrete]).devices = [a, b] ∨
          (sample_init_native [sample_integrated, sample_discrete]).devices = [b, a]) →
        a.props.deviceType = VK_PHYSICAL_DEVICE_TYPE_INTEGRATED_GPU →
        b.props.deviceType = VK_PHYSICAL_DEVICE_TYPE_DISCRETE_GPU →
        (find_compute_queue_family a).isSome → (find_compute_queue_family b).isSome →
        d = b) :=
  svk_init_selects_first_of_best_class (sample_init_native [sample_integrated, sample_discrete])
    ⟨sample_discrete, by decide, by decide⟩

/-- The two enumeration orders of an integrated and a discrete device, run
through `svk_init`: the discrete device (handle 20) is recorded both times. -/
theorem svk_init_two_devices_either_order :
    ((svk_init (sample_init_native [sample_integrated, sample_discrete])).1.map
        (fun c => (c.physical_device, c.is_discrete, c.vendor_id, c.max_workgroup_size)))
      = some (20, 1, 0x10DE, 1024) ∧
    ((svk_init (sample_init_native [sample_discrete, sample_integrated])).1.map
        (fun c => (c.physical_device, c.is_discrete, c.vendor_id, c.max_workgroup_size)))
      = some (20, 1, 0x10DE, 1024) := by
  constructor <;> decide

/-- C7: `svk_init` returns null whenever no enumerated device has a queue
family with the compute bit (an empty enumeration included), whatever the native
creations answer; and every context it returns records a device of the
enumeration that has such a family, so a device without one is never the
selected one. -/
theorem svk_init_null_without_compute_queue (native : InitNative) :
    ((∀ x ∈ native.devices, find_compute_queue_family x = none) →
      (svk_init native).1 = none) ∧
    (∀ ctx, (svk_init native).1 = some ctx →
      ∃ d ∈ native.devices,
        find_compute_queue_family d = some ctx.compute_queue_family ∧
        ctx.physical_device = d.handle) := by
  have key : ∀ ctx, (svk_init native).1 = some ctx →
      ∃ d ∈ native.devices,
        find_compute_queue_family d = some ctx.compute_queue_family ∧
        ctx.physical_device = d.handle := by
    intro ctx hctx
    obtain ⟨inst, dev, pool, dpool, hnn, hEq⟩ := svk_init_some native ctx hctx
    rcases selectInv_select native.devices { zeroed_context with vk_instance := inst } with
      ⟨h1, _, _⟩ | ⟨pre, d, post, hd, _, _, hr, _, _⟩
    · rw [h1] at hnn
      exact absurd (by decide) hnn
    · obtain ⟨r1, r2, _⟩ := hr
      subst hEq
      exact ⟨d, by rw [hd]; simp, r2, r1⟩
  refine ⟨?_, key⟩
  intro hnone
  cases hres : (svk_init native).1 with
  | none => rfl
  | some ctx =>
    obtain ⟨d, hd, hf, _⟩ := key ctx hres
    rw [hnone d hd] at hf
    cases hf

/-- C7 witness: an enumeration holding only a device without a compute queue
family gives null, and the context returned when such a device is enumerated
before an integrated GPU records a device that has one. -/
theorem svk_init_null_without_compute_queue_witness :
    (svk_init (sample_init_native [sample_no_compute])).1 = none ∧
    (svk_init (sample_init_native [])).1 = none ∧
    ∃ d ∈ (sample_init_native [sample_no_compute, sample_integrated]).devices,
      find_compute_queue_family d = some 0 ∧ 10 = d.handle :=
  ⟨(svk_init_null_without_compute_queue (sample_init_native [sample_no_compute])).1
      (by decide),
   (svk_init_null_without_compute_queue (sample_init_native [])).1 (by decide),
   (svk_init_null_without_compute_queue
      (sample_init_native [sample_no_compute, sample_integrated])).2
      { zeroed_context with
        vk_instance := 1, physical_device := 10, device := 3, compute_queue := 4,
        compute_queue_family := 0, command_pool := 5, descriptor_pool := 6,
        device_name := [73, 71, 80], vendor_id := 0x8086, is_discrete := 0,
        max_workgroup_size := 256 }
      (by decide)⟩

/-! ## Buffer creation -/

/-- The two failures that `svk_create_buffer` checks for, native buffer creation
and memory allocation, give a null handle and leave no native object behind. -/
theorem svk_create_buffer_checked_failures (c : svk_context_t) (size usage : Nat)
    (native : CreateBufferNative)
    (h : native.createBuffer = none ∨ native.allocateMemory = none) :
    (svk_create_buffer (some c) size usage native).1 = none ∧
    unreleased (svk_create_buffer (some c) size usage native).2 = [] := by
  unfold svk_create_buffer
  by_cases hs : size = 0
  · simp [hs, unreleased]
  · cases hb : native.createBuffer with
    | none => simp [hs, unreleased, VkCall.created, VkCall.released]
    | some b =>
      cases hm : native.allocateMemory with
      | none => simp [hs, unreleased, VkCall.created, VkCall.released]
      | some m => simp [hb, hm] at h

/-- C8 (evaluation at the failing inputs): when `vkBindBufferMemory` fails after
a successful creation and allocation, `svk_create_buffer` returns a non-null
handle and has released neither the buffer nor the memory; and when the device
has no host-visible, host-coherent memory type, the lookup gives `UINT32_MAX`,
which is passed on to `vkAllocateMemory`, and a non-null handle is returned if
that call and the binding succeed. -/
theorem svk_create_buffer_unchecked_failures :
    svk_create_buffer (some sample_context) 16 SVK_BUFFER_STORAGE sample_bind_fails
      = (some { buffer := 7, memory := 9, size := 16, usage := SVK_BUFFER_STORAGE },
         [VkCall.vkCreateBuffer 16 35 (some 7), VkCall.vkAllocateMemory 64 1 (some 9),
          VkCall.vkBindBufferMemory 7 9 false]) ∧
    unreleased
        (svk_create_buffer (some sample_context) 16 SVK_BUFFER_STORAGE sample_bind_fails).2
      = [NativeObject.buffer 7, NativeObject.memory 9] ∧
    find_memory_type sample_no_host_memory_type.memoryTypes
        sample_no_host_memory_type.memoryTypeBits
        (VK_MEMORY_PROPERTY_HOST_VISIBLE_BIT ||| VK_MEMORY_PROPERTY_HOST_COHERENT_BIT)
      = UINT32_MAX ∧
    svk_create_buffer (some sample_context) 16 SVK_BUFFER_STORAGE sample_no_host_memory_type
      = (some { buffer := 7, memory := 9, size := 16, usage := SVK_BUFFER_STORAGE },
         [VkCall.vkCreateBuffer 16 35 (some 7),
          VkCall.vkAllocateMemory 64 UINT32_MAX (some 9),
          VkCall.vkBindBufferMemory 7 9 true]) := by
  refine ⟨by decide, by decide, by decide, by decide⟩

/-! ## Pipeline creation -/

/-- C9 (counterexample): with a failing descriptor-set-layout creation and the
other three native calls succeeding, `svk_create_pipeline` returns a non-null
handle; and with only the compute-pipeline creation failing it returns null but
the descriptor set it allocated (handle 12) is left unreleased. -/
theorem svk_create_pipeline_not_all_released :
    (svk_create_pipeline (some sample_context) (some ⟨21⟩)
        { createDescriptorSetLayout := none, allocateDescriptorSets := some 12,
          createPipelineLayout := some 13, createComputePipelines := some 14 }).1.isSome
      = true ∧
    (svk_create_pipeline (some sample_context) (some ⟨21⟩)
        { createDescriptorSetLayout := some 11, allocateDescriptorSets := some 12,
          createPipelineLayout := some 13, createComputePipelines := none }).1.isNone
      = true ∧
    unreleased (svk_create_pipeline (some sample_context) (some ⟨21⟩)
        { createDescriptorSetLayout := some 11, allocateDescriptorSets := some 12,
          createPipelineLayout := some 13, createComputePipelines := none }).2
      = [NativeObject.descriptorSet 12] := by
  refine ⟨by decide, by decide, by decide⟩

/-- C9 (amended): when the compute-pipeline creation fails, `svk_create_pipeline`
returns null; after the four construction calls it destroys the pipeline layout
and then the descriptor-set layout, and the only native object it can leave
unreleased is the descriptor set allocated from the pool of the context. -/
theorem svk_create_pipeline_failure_unwinds (c : svk_context_t) (sh : svk_shader_t)
    (native : CreatePipelineNative) (h : native.createComputePipelines = none) :
    (svk_create_pipeline (some c) (some sh) native).1 = none ∧
    (svk_create_pipeline (some c) (some sh) native).2 =
      [VkCall.vkCreateDescriptorSetLayout SVK_MAX_BINDINGS native.createDescriptorSetLayout,
       VkCall.vkAllocateDescriptorSets c.descriptor_pool
         (native.createDescriptorSetLayout.getD 0) native.allocateDescriptorSets,
       VkCall.vkCreatePipelineLayout (native.createDescriptorSetLayout.getD 0) 128
         native.createPipelineLayout,
       VkCall.vkCreateComputePipelines sh.module (native.createPipelineLayout.getD 0) none,
       VkCall.vkDestroyPipelineLayout (native.createPipelineLayout.getD 0),
       VkCall.vkDestroyDescriptorSetLayout (native.createDescriptorSetLayout.getD 0)] ∧
    ∀ o ∈ unreleased (svk_create_pipeline (some c) (some sh) native).2,
      ∃ s, native.allocateDescriptorSets = some s ∧ o = NativeObject.descriptorSet s := by
  refine ⟨by simp [svk_create_pipeline, h], by simp [svk_create_pipeline, h, zeroed_pipeline], ?_⟩
  intro o ho
  cases h1 : native.createDescriptorSetLayout <;> cases h2 : native.allocateDescriptorSets <;>
    cases h3 : native.createPipelineLayout <;>
    simp [svk_create_pipeline, h, h1, h2, h3, zeroed_pipeline, unreleased, VkCall.created,
      VkCall.released] at ho ⊢ <;>
    exact ho

/-- C9 witness: all construction calls succeed but the last. -/
theorem svk_create_pipeline_failure_unwinds_witness :
    (svk_create_pipeline (some sample_context) (some ⟨21⟩) ⟨some 11, some 12, some 13, none⟩).1
      = none ∧
    (svk_create_pipeline (some sample_context) (some ⟨21⟩) ⟨some 11, some 12, some 13, none⟩).2 =
      [VkCall.vkCreateDescriptorSetLayout 8 (some 11),
       VkCall.vkAllocateDescriptorSets 6 11 (some 12),
       VkCall.vkCreatePipelineLayout 11 128 (some 13),
       VkCall.vkCreateComputePipelines 21 13 none,
       VkCall.vkDestroyPipelineLayout 13,
       VkCall.vkDestroyDescriptorSetLayout 11] ∧
    ∀ o ∈ unreleased
        (svk_create_pipeline (some sample_context) (some ⟨21⟩)
          ⟨some 11, some 12, some 13, none⟩).2,
      ∃ s, some 12 = some s ∧ o = NativeObject.descriptorSet s :=
  svk_create_pipeline_failure_unwinds sample_context ⟨21⟩ ⟨some 11, some 12, some 13, none⟩ rfl

/-! ## Image readback -/

/-- When the pixel count `width * height` fits 32 bits, `image_size` is the
product `width * height * pixel_size` of natural numbers, with 16 bytes per
pixel for `SVK_FORMAT_RGBA32F` and 4 for every other format tag. -/
theorem image_size_of_small_pixel_count (img : svk_image_t)
    (h : img.width * img.height < 2 ^ 32) :
    image_size img =
      img.width * img.height * (if img.format = SVK_FORMAT_RGBA32F then 16 else 4) := by
  unfold image_size pixel_size
  rw [Nat.mod_eq_of_lt h]
  apply Nat.mod_eq_of_lt
  split_ifs <;> omega

/-- C10 (evaluation at the failing input): for a 65536 by 65536 image in the
float format the product of natural numbers is `2 ^ 36`, but `image_size` is 0,
because the pixel count wraps to 0 in 32 bits.  On a context without staging
buffer `svk_download_image` then creates no staging buffer, maps 0 bytes and
copies nothing to the caller.  For a 65537 by 65536 image in the 8-bit format
the staging buffer is created with 262144 bytes, not with 17180131328. -/
theorem svk_download_image_size_wraps :
    sample_wide_image.width * sample_wide_image.height * 16 = 2 ^ 36 ∧
    image_size sample_wide_image = 0 ∧
    svk_download_image (some sample_context) (some sample_wide_image) (some [1, 2, 3, 4])
        sample_download_native
      = (1, some sample_context, some [1, 2, 3, 4],
         [VkCall.vkAllocateCommandBuffers 5, VkCall.vkBeginCommandBuffer,
          VkCall.vkCmdPipelineBarrier 31, VkCall.vkCmdCopyImageToBuffer 31 0 65536 65536,
          VkCall.vkEndCommandBuffer, VkCall.vkQueueSubmit 4, VkCall.vkQueueWaitIdle 4,
          VkCall.vkFreeCommandBuffers 5, VkCall.vkMapMemory 0 0 0 true,
          VkCall.vkUnmapMemory 0]) ∧
    sample_wide_image8.width * sample_wide_image8.height * 4 = 17180131328 ∧
    image_size sample_wide_image8 = 262144 ∧
    (svk_download_image (some sample_context) (some sample_wide_image8) (some [1, 2, 3, 4])
        sample_download_native).2.2.2.head?
      = some (VkCall.vkCreateBuffer 262144 VK_BUFFER_USAGE_TRANSFER_DST_BIT (some 40)) := by
  refine ⟨by decide, by decide, by decide, by decide, by decide, by decide⟩

/-- One readback leaves the staging capacity at the larger of the old capacity
and `image_size`. -/
theorem svk_download_image_capacity_step (c : svk_context_t) (im : svk_image_t)
    (d : List Nat) (native : DownloadImageNative) :
    ((svk_download_image (some c) (some im) (some d) native).2.1.getD c).staging_size
      = max c.staging_size (image_size im) := by
  by_cases h : c.staging_size < image_size im
  · simp [svk_download_image, h, Nat.max_eq_right (Nat.le_of_lt h)]
  · simp [svk_download_image, h, Nat.max_eq_left (Nat.le_of_not_lt h)]

/-- Over any sequence of readbacks the staging capacity ends at least as large
as it started and as every size required on the way. -/
theorem download_images_from_capacity
    (reqs : List (svk_image_t × List Nat × DownloadImageNative)) :
    ∀ c : svk_context_t,
      c.staging_size ≤ (download_images_from c reqs).staging_size ∧
      ∀ r ∈ reqs, image_size r.1 ≤ (download_images_from c reqs).staging_size := by
  induction reqs with
  | nil => intro c; simp [download_images_from]
  | cons r rest ih =>
    intro c
    obtain ⟨im, d, native⟩ := r
    have hstep := svk_download_image_capacity_step c im d native
    obtain ⟨h1, h2⟩ := ih ((svk_download_image (some c) (some im) (some d) native).2.1.getD c)
    rw [hstep] at h1
    simp only [download_images_from]
    refine ⟨le_trans (le_max_left _ _) h1, ?_⟩
    intro r hr
    rcases List.mem_cons.mp hr with hr | hr
    · subst hr
      exact le_trans (le_max_right _ _) h1
    · exact h2 r hr

/-- Staging policy in terms of the size the call computes: after
`svk_download_image` with non-null arguments the staging capacity is the maximum
of the capacity before and `image_size`, which is width x height x per-pixel
size only when the pixel count fits 32 bits.  The staging buffer is replaced
exactly when the old capacity is strictly smaller than `image_size`: otherwise
the context is unchanged and the call creates and releases nothing.  Over any
sequence of readbacks the capacity never ends below where it started nor below
any `image_size` computed on the way. -/
theorem svk_download_image_staging_capacity (c : svk_context_t) (im : svk_image_t)
    (d : List Nat) (native : DownloadImageNative) :
    ∃ c1, (svk_download_image (some c) (some im) (some d) native).2.1 = some c1 ∧
      c1.staging_size = max c.staging_size (image_size im) ∧
      c.staging_size ≤ c1.staging_size ∧ image_size im ≤ c1.staging_size ∧
      (im.width * im.height < 2 ^ 32 →
        c1.staging_size = max c.staging_size
          (im.width * im.height * (if im.format = SVK_FORMAT_RGBA32F then 16 else 4))) ∧
      (¬ c.staging_size < image_size im →
        c1 = c ∧
        (svk_download_image (some c) (some im) (some d) native).2.2.2.filterMap VkCall.created
          = [] ∧
        (svk_download_image (some c) (some im) (some d) native).2.2.2.filterMap VkCall.released
          = []) ∧
      (c.staging_size < image_size im →
        c1.staging_size = image_size im ∧
        VkCall.vkCreateBuffer (image_size im) VK_BUFFER_USAGE_TRANSFER_DST_BIT
            native.createBuffer
          ∈ (svk_download_image (some c) (some im) (some d) native).2.2.2) ∧
      ∀ reqs : List (svk_image_t × List Nat × DownloadImageNative),
        c.staging_size ≤ (download_images_from c reqs).staging_size ∧
        ∀ r ∈ reqs, image_size r.1 ≤ (download_images_from c reqs).staging_size := by
  have hstep := svk_download_image_capacity_step c im d native
  by_cases h : c.staging_size < image_size im
  · refine ⟨{ c with staging_buffer := native.createBuffer.getD c.staging_buffer
                     staging_memory := native.allocateMemory.getD c.staging_memory
                     staging_size := image_size im }, ?_, ?_, ?_, ?_, ?_, ?_, ?_, ?_⟩
    · simp [svk_download_image, h]
    · simp [Nat.max_eq_right (Nat.le_of_lt h)]
    · exact Nat.le_of_lt h
    · exact Nat.le_refl _
    · intro hsmall
      rw [← image_size_of_small_pixel_count im hsmall]
      simp [Nat.max_eq_right (Nat.le_of_lt h)]
    · intro hn; exact absurd h hn
    · intro _
      refine ⟨rfl, ?_⟩
      by_cases hb : c.staging_buffer = 0 <;> simp [svk_download_image, h, hb]
    · exact fun reqs => download_images_from_capacity reqs c
  · refine ⟨c, ?_, ?_, ?_, ?_, ?_, ?_, ?_, ?_⟩
    · simp [svk_download_image, h]
    · simp [Nat.max_eq_left (Nat.le_of_not_lt h)]
    · exact Nat.le_refl _
    · exact Nat.le_of_not_lt h
    · intro hsmall
      rw [← image_size_of_small_pixel_count im hsmall]
      simp [Nat.max_eq_left (Nat.le_of_not_lt h)]
    · intro _
      refine ⟨rfl, ?_, ?_⟩ <;> simp [svk_download_image, h, VkCall.created, VkCall.released]
    · intro hlt; exact absurd hlt h
    · exact fun reqs => download_images_from_capacity reqs c

/-- The staging policy at a 4 by 4 float image read back on a fresh context, with
an 8 by 8 and again the 4 by 4 image in the sequence part. -/
theorem svk_download_image_staging_capacity_witness :
    (∃ c1, (svk_download_image (some sample_context) (some sample_image_4x4)
          (some (List.replicate 256 0)) sample_download_native).2.1 = some c1 ∧
      c1.staging_size = 256) ∧
    256 ≤ (download_images_from sample_context
      [(sample_image_4x4, List.replicate 256 0, sample_download_native),
       (sample_image_8x8, List.replicate 1024 0, sample_download_native),
       (sample_image_4x4, List.replicate 256 0, sample_download_native)]).staging_size := by
  obtain ⟨c1, h1, _, _, _, _, _, h7, h8⟩ :=
    svk_download_image_staging_capacity sample_context sample_image_4x4
      (List.replicate 256 0) sample_download_native
  refine ⟨⟨c1, h1, (h7 (by decide)).1⟩, ?_⟩
  exact (h8 [(sample_image_4x4, List.replicate 256 0, sample_download_native),
       (sample_image_8x8, List.replicate 1024 0, sample_download_native),
       (sample_image_4x4, List.replicate 256 0, sample_download_native)]).2
    (sample_image_4x4, List.replicate 256 0, sample_download_native)
    (List.mem_cons_self _ _)

/-- C11 (evaluation at the failing inputs): a 65536 by 65536 float image
requires `2 ^ 36` bytes, but after `svk_download_image` on a context of staging
capacity 0 the capacity is still 0, which is neither the maximum of the capacity
before and the required size nor at least the required size, and no staging
buffer was created.  For a 65537 by 65536 image in the 8-bit format, which
requires 17180131328 bytes, the capacity afterwards is 262144. -/
theorem svk_download_image_capacity_below_required :
    sample_wide_image.width * sample_wide_image.height * 16 = 2 ^ 36 ∧
    sample_context.staging_size = 0 ∧
    (svk_download_image (some sample_context) (some sample_wide_image) (some [1, 2, 3, 4])
        sample_download_native).2.1.map (fun c => c.staging_size) = some 0 ∧
    (0 : Nat) ≠ max sample_context.staging_size
      (sample_wide_image.width * sample_wide_image.height * 16) ∧
    (0 : Nat) < sample_wide_image.width * sample_wide_image.height * 16 ∧
    (svk_download_image (some sample_context) (some sample_wide_image) (some [1, 2, 3, 4])
        sample_download_native).2.2.2.filterMap VkCall.created = [] ∧
    sample_wide_image8.width * sample_wide_image8.height * 4 = 17180131328 ∧
    (svk_download_image (some sample_context) (some sample_wide_image8) (some [1, 2, 3, 4])
        sample_download_native).2.1.map (fun c => c.staging_size) = some 262144 := by
  refine ⟨by decide, by decide, by decide, by decide, by decide, by decide, by decide,
    by decide⟩

/-- A failed staging-buffer creation leaves the handle of the destroyed buffer
in the context while the capacity is raised all the same. -/
theorem svk_download_image_failed_growth_keeps_handles :
    (svk_download_image
        (some { sample_context with staging_buffer := 40, staging_memory := 41,
                                    staging_size := 16 })
        (some sample_image_4x4) (some [])
        { sample_download_native with createBuffer := none, allocateMemory := none }).2.1.map
      (fun c => (c.staging_buffer, c.staging_memory, c.staging_size))
      = some (40, 41, 256) := by
  decide

/-! ## Buffer size -/

/-- C12: for a non-null context and a size above 0, whatever the usage mask and
whatever the native calls answer (the reported allocation size included), every
handle that `svk_create_buffer` returns has `svk_buffer_size` equal to the
requested size; and a handle is returned as soon as the native buffer creation
and memory allocation succeed. -/
theorem svk_create_buffer_size_is_requested (c : svk_context_t) (size usage : Nat)
    (native : CreateBufferNative) (hpos : 0 < size) :
    (∀ b, (svk_create_buffer (some c) size usage native).1 = some b →
      svk_buffer_size (some b) = size) ∧
    (native.createBuffer.isSome → native.allocateMemory.isSome →
      ∃ b, (svk_create_buffer (some c) size usage native).1 = some b ∧
        svk_buffer_size (some b) = size) := by
  have hs : ¬ size = 0 := by omega
  constructor
  · intro b hb
    unfold svk_create_buffer at hb
    cases h1 : native.createBuffer with
    | none => simp [hs, h1] at hb
    | some bh =>
      cases h2 : native.allocateMemory with
      | none => simp [hs, h1, h2] at hb
      | some m =>
        simp [hs, h1, h2] at hb
        subst hb
        rfl
  · intro h1 h2
    obtain ⟨bh, h1⟩ := Option.isSome_iff_exists.mp h1
    obtain ⟨m, h2⟩ := Option.isSome_iff_exists.mp h2
    exact ⟨{ buffer := bh, memory := m, size := size, usage := usage },
      by simp [svk_create_buffer, hs, h1, h2], rfl⟩

/-- C12 witness: a 16-byte storage buffer whose allocation is reported as 64
bytes. -/
theorem svk_create_buffer_size_is_requested_witness :
    ∃ b, (svk_create_buffer (some sample_context) 16 SVK_BUFFER_STORAGE sample_create_ok).1
        = some b ∧ svk_buffer_size (some b) = 16 :=
  (svk_create_buffer_size_is_requested sample_context 16 SVK_BUFFER_STORAGE sample_create_ok
    (by decide)).2 (by decide) (by decide)

/-! ## Release and teardown -/

/-- C13 (counterexample): releasing the 4 by 4 image issues the calls destroy
view, free memory, destroy image, in that order; the image's memory (handle 52)
is freed before the image (handle 51) is destroyed. -/
theorem svk_free_image_frees_memory_before_image :
    svk_free_image (some sample_context) (some sample_image_4x4)
      = [VkCall.vkDestroyImageView 53, VkCall.vkFreeMemory 52, VkCall.vkDestroyImage 51] ∧
    (svk_free_image (some sample_context) (some sample_image_4x4)).indexOf
        (VkCall.vkFreeMemory 52)
      < (svk_free_image (some sample_context) (some sample_image_4x4)).indexOf
        (VkCall.vkDestroyImage 51) := by
  constructor <;> decide

/-- C13 (amended): with non-null context and handle, `svk_free_buffer` destroys
the buffer and then frees its memory, and issues nothing else; `svk_free_image`
destroys the view when there is one, then frees the image's memory, then
destroys the image, and issues nothing else. -/
theorem svk_free_release_order (c : svk_context_t) (b : svk_buffer_t) (im : svk_image_t) :
    svk_free_buffer (some c) (some b)
      = [VkCall.vkDestroyBuffer b.buffer, VkCall.vkFreeMemory b.memory] ∧
    svk_free_image (some c) (some im)
      = (if im.view ≠ 0 then [VkCall.vkDestroyImageView im.view] else []) ++
        [VkCall.vkFreeMemory im.memory, VkCall.vkDestroyImage im.image] ∧
    (svk_free_buffer (some c) (some b)).Pairwise
      (fun first second => ¬ (∃ m, first = VkCall.vkFreeMemory m) ∨
        ¬ (∃ h, second = VkCall.vkDestroyBuffer h)) ∧
    (svk_free_image (some c) (some im)).Pairwise
      (fun first second => ¬ (∃ m, first = VkCall.vkFreeMemory m) ∨
        ¬ (∃ h, second = VkCall.vkDestroyImageView h)) := by
  refine ⟨rfl, rfl, ?_, ?_⟩
  · simp [svk_free_buffer]
  · by_cases hv : im.view = 0 <;> simp [svk_free_image, hv]

/-- C14 (counterexample): on a context holding an instance, a device and both
pools, `svk_cleanup` destroys the descriptor pool (handle 6) before the command
pool (handle 5). -/
theorem svk_cleanup_descriptor_pool_before_command_pool :
    svk_cleanup (some sample_context)
      = [VkCall.vkDeviceWaitIdle 3, VkCall.vkDestroyDescriptorPool 6,
         VkCall.vkDestroyCommandPool 5, VkCall.vkDestroyDevice 3,
         VkCall.vkDestroyInstance 1] ∧
    (svk_cleanup (some sample_context)).indexOf (VkCall.vkDestroyDescriptorPool 6)
      < (svk_cleanup (some sample_context)).indexOf (VkCall.vkDestroyCommandPool 5) := by
  constructor <;> decide

/-- C14 (amended): on a non-null context `svk_cleanup` calls `vkDeviceWaitIdle`
first, and every later call comes in the order staging buffer, staging memory,
descriptor pool, command pool, logical device, instance; the staging pair is
released exactly when a staging buffer is present, and each of the four other
objects is destroyed exactly when its handle is present. -/
theorem svk_cleanup_order (c : svk_context_t) :
    (svk_cleanup (some c)).head? = some (VkCall.vkDeviceWaitIdle c.device) ∧
    (svk_cleanup (some c)).Pairwise (fun a b => cleanup_stage a < cleanup_stage b) ∧
    (VkCall.vkDestroyBuffer c.staging_buffer ∈ svk_cleanup (some c) ↔ c.staging_buffer ≠ 0) ∧
    (VkCall.vkFreeMemory c.staging_memory ∈ svk_cleanup (some c) ↔ c.staging_buffer ≠ 0) ∧
    (VkCall.vkDestroyDescriptorPool c.descriptor_pool ∈ svk_cleanup (some c)
      ↔ c.descriptor_pool ≠ 0) ∧
    (VkCall.vkDestroyCommandPool c.command_pool ∈ svk_cleanup (some c)
      ↔ c.command_pool ≠ 0) ∧
    (VkCall.vkDestroyDevice c.device ∈ svk_cleanup (some c) ↔ c.device ≠ 0) ∧
    (VkCall.vkDestroyInstance c.vk_instance ∈ svk_cleanup (some c) ↔ c.vk_instance ≠ 0) ∧
    (svk_cleanup (some c)).length
      = 1 + (if c.staging_buffer ≠ 0 then 2 else 0) + (if c.descriptor_pool ≠ 0 then 1 else 0)
          + (if c.command_pool ≠ 0 then 1 else 0) + (if c.device ≠ 0 then 1 else 0)
          + (if c.vk_instance ≠ 0 then 1 else 0) := by
  by_cases h1 : c.staging_buffer = 0 <;> by_cases h2 : c.descriptor_pool = 0 <;>
    by_cases h3 : c.command_pool = 0 <;> by_cases h4 : c.device = 0 <;>
    by_cases h5 : c.vk_instance = 0 <;>
    simp [svk_cleanup, cleanup_stage, h1, h2, h3, h4, h5]

/-! ## Dispatch -/

/-- The write loop, run over any list of slots from any start, appends the
requested write of each bound slot in list order. -/
theorem dispatch_writes_foldl (p : svk_pipeline_t) (l : List (Fin SVK_MAX_BINDINGS)) :
    ∀ acc : List VkWriteDescriptorSet,
      l.foldl
        (fun writes i =>
          match p.buffers i with
          | some b =>
            writes ++ [{ dstSet := p.desc_set, dstBinding := i.val, descriptorCount := 1,
                         descriptorType := VK_DESCRIPTOR_TYPE_STORAGE_BUFFER,
                         buffer := b.buffer, offset := 0, range := b.size }]
          | none => writes)
        acc
      = acc ++ l.filterMap (fun i => (p.buffers i).map (spec_slot_write p i)) := by
  induction l with
  | nil => intro acc; simp
  | cons i rest ih =>
    intro acc
    rw [List.foldl_cons, ih]
    cases hb : p.buffers i with
    | none => simp [List.filterMap_cons, hb]
    | some b => simp [List.filterMap_cons, hb, spec_slot_write]

/-- The writes built by `svk_dispatch` are the requested writes of the bound
slots, in slot order. -/
theorem svk_dispatch_writes_eq (p : svk_pipeline_t) :
    svk_dispatch_writes p =
      (List.finRange SVK_MAX_BINDINGS).filterMap
        (fun i => (p.buffers i).map (spec_slot_write p i)) := by
  unfold svk_dispatch_writes
  rw [dispatch_writes_foldl]
  simp

/-- Mapping the bound slots of a list yields as many entries as there are bound
slots in it. -/
theorem length_filterMap_bound (p : svk_pipeline_t) (l : List (Fin SVK_MAX_BINDINGS)) :
    (l.filterMap (fun i => (p.buffers i).map (spec_slot_write p i))).length
      = (l.filter (fun i => (p.buffers i).isSome)).length := by
  induction l with
  | nil => simp
  | cons i rest ih =>
    cases hb : p.buffers i with
    | none => simp [List.filterMap_cons, List.filter_cons, hb, ih]
    | some b => simp [List.filterMap_cons, List.filter_cons, hb, ih]

/-- C15: the descriptor writes that `svk_dispatch` builds are, slot by slot in
ascending order, one write for each slot that holds a buffer and none for an
empty slot; the write for slot `i` holding `b` has destination binding `i`,
storage-buffer type, offset 0 and range the declared size of `b`.  Their number
is the number of bound slots, at most 8.  `svk_dispatch` passes all of them to
a single `vkUpdateDescriptorSets` call, and issues no such call when no slot is
bound. -/
theorem svk_dispatch_descriptor_writes (c : svk_context_t) (p : svk_pipeline_t)
    (x y z : Nat) (native : DispatchNative) :
    svk_dispatch_writes p =
      (List.finRange SVK_MAX_BINDINGS).filterMap
        (fun i => (p.buffers i).map (fun b =>
          ({ dstSet := p.desc_set, dstBinding := i.val, descriptorCount := 1,
             descriptorType := VK_DESCRIPTOR_TYPE_STORAGE_BUFFER,
             buffer := b.buffer, offset := 0, range := b.size } : VkWriteDescriptorSet))) ∧
    ((svk_dispatch_writes p).map (fun w => w.dstBinding)).Pairwise (fun a b => a < b) ∧
    (svk_dispatch_writes p).length
      = ((List.finRange SVK_MAX_BINDINGS).filter (fun i => (p.buffers i).isSome)).length ∧
    (svk_dispatch_writes p).length ≤ 8 ∧
    (svk_dispatch (some c) (some p) x y z native).2.filterMap VkCall.descriptorWrites
      = (if (∀ i, p.buffers i = none) then [] else [svk_dispatch_writes p]) := by
  have heq := svk_dispatch_writes_eq p
  have hlen : (svk_dispatch_writes p).length
      = ((List.finRange SVK_MAX_BINDINGS).filter (fun i => (p.buffers i).isSome)).length := by
    rw [heq, length_filterMap_bound]
  refine ⟨heq, ?_, hlen, ?_, ?_⟩
  · rw [heq, List.map_filterMap]
    refine List.Pairwise.filterMap _ ?_ (List.pairwise_lt_finRange SVK_MAX_BINDINGS)
    intro i j hij a ha b hb
    cases hi : p.buffers i with
    | none => simp [hi] at ha
    | some bi =>
      cases hj : p.buffers j with
      | none => simp [hj] at hb
      | some bj =>
        simp [hi, spec_slot_write] at ha
        simp [hj, spec_slot_write] at hb
        subst ha
        subst hb
        exact hij
  · rw [hlen]
    have := List.length_filter_le (fun i => (p.buffers i).isSome)
      (List.finRange SVK_MAX_BINDINGS)
    simpa using this
  · have hnone : (∀ i, p.buffers i = none) ↔ (svk_dispatch_writes p).length = 0 := by
      rw [hlen, List.length_eq_zero, List.filter_eq_nil_iff]
      constructor
      · intro h i _; simp [h i]
      · intro h i
        have := h i (List.mem_finRange i)
        simpa using this
    by_cases hall : ∀ i, p.buffers i = none
    · have h0 : ¬ (svk_dispatch_writes p).length > 0 := by
        have := hnone.mp hall
        omega
      rw [if_pos hall]
      by_cases hp : p.push_size > 0
      · simp only [svk_dispatch, if_neg h0, if_pos hp]; rfl
      · simp only [svk_dispatch, if_neg h0, if_neg hp]; rfl
    · have h0 : (svk_dispatch_writes p).length > 0 := by
        have := mt hnone.mpr hall
        omega
      rw [if_neg hall]
      by_cases hp : p.push_size > 0
      · simp only [svk_dispatch, if_pos h0, if_pos hp]; rfl
      · simp only [svk_dispatch, if_pos h0, if_neg hp]; rfl

/-- The writes built for a pipeline with buffers at slots 1 and 4 only, and the
whole call sequence of a dispatch on it. -/
theorem svk_dispatch_sample_writes :
    svk_dispatch_writes sample_bound_pipeline
      = [{ dstSet := 12, dstBinding := 1, descriptorCount := 1, descriptorType := 7,
           buffer := 70, offset := 0, range := 16 },
         { dstSet := 12, dstBinding := 4, descriptorCount := 1, descriptorType := 7,
           buffer := 80, offset := 0, range := 32 }] ∧
    svk_dispatch (some sample_context) (some sample_bound_pipeline) 2 3 1
        sample_dispatch_all_fail
      = (1, [VkCall.vkAllocateCommandBuffers 5, VkCall.vkBeginCommandBuffer,
             VkCall.vkCmdBindPipeline 14,
             VkCall.vkUpdateDescriptorSets (svk_dispatch_writes sample_bound_pipeline),
             VkCall.vkCmdBindDescriptorSets 13 12, VkCall.vkCmdDispatch 2 3 1,
             VkCall.vkEndCommandBuffer, VkCall.vkQueueSubmit 4, VkCall.vkQueueWaitIdle 4,
             VkCall.vkFreeCommandBuffers 5]) := by
  constructor <;> decide

/-- C16: on a pipeline `p`, with a payload holding at least `size` bytes and
`size ≤ 128`, `svk_set_push_constants` returns 1 and issues no native call;
afterwards the push size is `size`, the first `size` scratch bytes are the first
`size` payload bytes, and every scratch byte at an index of at least `size` is
as before.  A following `svk_dispatch` pushes exactly those `size` bytes in one
`vkCmdPushConstants` call when `size > 0`, and issues no such call when
`size = 0`. -/
theorem svk_set_push_constants_then_dispatch (p : svk_pipeline_t) (d : List Nat) (size : Nat)
    (hsize : size ≤ 128) (hlen : size ≤ d.length) :
    ∃ q, svk_set_push_constants (some p) (some d) size = (1, some q, []) ∧
      q.push_size = size ∧
      (List.ofFn q.push_data).take size = d.take size ∧
      (∀ i : Fin 128, size ≤ i.val → q.push_data i = p.push_data i) ∧
      ∀ (c : svk_context_t) (x y z : Nat) (native : DispatchNative),
        (svk_dispatch (some c) (some q) x y z native).2.filterMap VkCall.pushedConstants
          = (if size > 0 then [(size, d.take size)] else []) := by
  have hn : ¬ size > 128 := by omega
  have htake : (List.ofFn
      (fun i : Fin 128 => if i.val < size then d.getD i.val 0 else p.push_data i)).take size
      = d.take size := by
    apply List.ext_getElem
    · rw [List.length_take, List.length_take, List.length_ofFn]
      omega
    · intro i h1 h2
      have hi : i < size := by
        rw [List.length_take] at h2
        omega
      have hd : i < d.length := by omega
      rw [List.getElem_take, List.getElem_take, List.getElem_ofFn]
      simp only [if_pos hi, List.getD_eq_getElem?_getD, List.getElem?_eq_getElem hd,
        Option.getD_some]
  refine ⟨{ p with
            push_data := fun i => if i.val < size then d.getD i.val 0 else p.push_data i
            push_size := size }, ?_, rfl, htake, ?_, ?_⟩
  · simp only [svk_set_push_constants, if_neg hn]
  · intro i hi
    have : ¬ i.val < size := by omega
    simp only [if_neg this]
  · intro c x y z native
    by_cases hw : (svk_dispatch_writes { p with
            push_data := fun i => if i.val < size then d.getD i.val 0 else p.push_data i
            push_size := size }).length > 0
    · by_cases hp : size > 0
      · simp only [svk_dispatch, if_pos hw, if_pos hp, htake]; rfl
      · simp only [svk_dispatch, if_pos hw, if_neg hp]; rfl
    · by_cases hp : size > 0
      · simp only [svk_dispatch, if_neg hw, if_pos hp, htake]; rfl
      · simp only [svk_dispatch, if_neg hw, if_neg hp]; rfl

/-- C16 witness: three bytes pushed on the pipeline with two bound buffers. -/
theorem svk_set_push_constants_then_dispatch_witness :
    ∃ q, svk_set_push_constants (some sample_bound_pipeline) (some [10, 20, 30]) 3
        = (1, some q, []) ∧
      q.push_size = 3 ∧
      (List.ofFn q.push_data).take 3 = [10, 20, 30].take 3 ∧
      (∀ i : Fin 128, 3 ≤ i.val → q.push_data i = sample_bound_pipeline.push_data i) ∧
      ∀ (c : svk_context_t) (x y z : Nat) (native : DispatchNative),
        (svk_dispatch (some c) (some q) x y z native).2.filterMap VkCall.pushedConstants
          = (if 3 > 0 then [(3, [10, 20, 30].take 3)] else []) :=
  svk_set_push_constants_then_dispatch sample_bound_pipeline [10, 20, 30] 3
    (by decide) (by decide)

/-- C17: `svk_dispatch` returns 1 exactly when both the context and the pipeline
are non-null.  With both non-null it returns 1 whatever the native command
buffer allocation, recording, submission and wait calls answer, and the calls
it issues do not depend on those answers either; with a null context or a null
pipeline it returns 0 and issues no native call. -/
theorem svk_dispatch_return_value (ctx : Option svk_context_t)
    (pipe : Option svk_pipeline_t) (x y z : Nat) (native : DispatchNative) :
    ((svk_dispatch ctx pipe x y z native).1 = 1 ↔ (ctx.isSome ∧ pipe.isSome)) ∧
    ((ctx = none ∨ pipe = none) → svk_dispatch ctx pipe x y z native = (0, [])) ∧
    (∀ c p, ctx = some c → pipe = some p →
      (svk_dispatch ctx pipe x y z native).1 = 1 ∧
      (svk_dispatch ctx pipe x y z native).2 ≠ []) ∧
    (∀ other : DispatchNative,
      svk_dispatch ctx pipe x y z other = svk_dispatch ctx pipe x y z native) := by
  cases ctx with
  | none => cases pipe <;> simp [svk_dispatch]
  | some c =>
    cases pipe with
    | none => simp [svk_dispatch]
    | some p =>
      refine ⟨⟨fun _ => ⟨rfl, rfl⟩, fun _ => rfl⟩, ?_, ?_, fun _ => rfl⟩
      · intro h
        rcases h with h | h <;> cases h
      · intro c1 p1 _ _
        refine ⟨rfl, ?_⟩
        intro h
        have h2 : (svk_dispatch (some c) (some p) x y z native).2.head? = none := by
          rw [h]; rfl
        change some _ = none at h2
        cases h2

/-- C17 witness: a dispatch whose native calls all fail still returns 1, and a
dispatch on a null pipeline returns 0 without any call. -/
theorem svk_dispatch_return_value_witness :
    (svk_dispatch (some sample_context) (some sample_bound_pipeline) 1 1 1
        sample_dispatch_all_fail).1 = 1 ∧
    svk_dispatch (some sample_context) none 1 1 1 sample_dispatch_all_fail = (0, []) :=
  ⟨((svk_dispatch_return_value (some sample_context) (some sample_bound_pipeline) 1 1 1
      sample_dispatch_all_fail).2.2.1 sample_context sample_bound_pipeline rfl rfl).1,
   (svk_dispatch_return_value (some sample_context) none 1 1 1
      sample_dispatch_all_fail).2.1 (Or.inr rfl)⟩

end SimpleVulkan
